import Mathlib

/-!
sdformat: Model loading, frame-semantics graphs and the SDF to USD link converter

A shallow embedding of `src/Model.cc` (class `sdf::Model`), of
`src/usd/sdf_usd_parser/link.cc` (`usd::ParseSdfLink`), of `src/usd/usd_parser/utils.cc`
(`directoryFromUSDPath`, `removeSubStr`, `ParseTransform`) and of
`src/usd/usd_parser/parser_usd.cc` (`usd::parseUSD`).

Conventions of the embedding

* C++ objects are records; a member function that mutates `this` returns the new record.
* An out-parameter passed by reference is an argument (the value before the call) together with
  a component of the result (the value after the call).
* `std::shared_ptr<PoseRelativeToGraph>` is an address into an explicit heap of graphs, so that
  "the very same graph" is equality of addresses; `std::make_shared` allocates the next address.
* Functions of the repository whose bodies are not in the translated files (`loadName`,
  `loadPose`, `loadUniqueRepeated`, the three graph builders, `SemanticPose::Resolve`, the
  `sdf::Element` accessors) are fields of a record of collaborators, so every theorem about
  `Model.Load` or `ParseSdfLink` that quantifies over that record holds for any implementation
  of them.  Concrete instances, modelled from the specification, are used to evaluate the code
  on concrete documents.
* The components of a pose are `double`s in the source.  The translated code only stores, copies
  and compares poses, so the components are exact rationals here.
-/

set_option autoImplicit false

namespace sdf

/-! ## Errors (sdf/Error.hh) -/

/-- Error codes.  `ELEMENT_INCORRECT_TYPE` and `ATTRIBUTE_MISSING` are the codes Model.cc uses;
the others are the error taxonomy of section 7 of the specification (and `ATTRIBUTE_INVALID`,
`ELEMENT_MISSING`, `ELEMENT_INVALID` for the modelled document readers and queries). -/
inductive ErrorCode where
  | ELEMENT_INCORRECT_TYPE
  | ATTRIBUTE_MISSING
  | ATTRIBUTE_INVALID
  | ELEMENT_MISSING
  | ELEMENT_INVALID
  | UnresolvedReference
  | DuplicateName
  | CyclicReference
  | AmbiguousRoot
  | MissingRoot
  | PathUnreachable
  deriving DecidableEq, Repr

/-- An `sdf::Error`: a code and a message. -/
structure Error where
  code : ErrorCode
  message : String
  deriving DecidableEq, Repr

/-- The type `sdf::Errors` is `std::vector<sdf::Error>`. -/
abbrev Errors := List Error

/-! ## Poses (ignition::math::Pose3d) -/

/-- A pose: position `(x, y, z)` and orientation quaternion `(qw, qx, qy, qz)`. -/
structure Pose3d where
  x : ℚ
  y : ℚ
  z : ℚ
  qw : ℚ
  qx : ℚ
  qy : ℚ
  qz : ℚ
  deriving DecidableEq, Repr

/-- The constant `ignition::math::Pose3d::Zero`: zero translation and the identity rotation. It
is also the value of a default-constructed `ignition::math::Pose3d`. -/
def Pose3d.Zero : Pose3d := ⟨0, 0, 0, 1, 0, 0, 0⟩

/-! ## The document tree (sdf::Element) -/

/-- Modelled from the spec: the typed value an element holds (`sdf::Param`; Param.hh is not among
the translated files): nothing, a string, a boolean or a pose. -/
inductive Param where
  | empty
  | text (s : String)
  | flag (b : Bool)
  | pose (p : Pose3d)
  deriving DecidableEq, Repr

/-- Modelled from the spec: a node of the hierarchical description document of section 1
(`sdf::Element`; Element.hh is not among the translated files): tag name, attributes, value and
child elements. -/
inductive Element where
  | mk (name : String) (attributes : List (String × String)) (value : Param)
      (children : List Element)

/-- The tag name, `Element::GetName()`. -/
def Element.GetName : Element → String
  | .mk n _ _ _ => n

/-- The attributes of an element, in document order. -/
def Element.attributes : Element → List (String × String)
  | .mk _ a _ _ => a

/-- The value of an element. -/
def Element.value : Element → Param
  | .mk _ _ v _ => v

/-- The child elements, in document order. -/
def Element.children : Element → List Element
  | .mk _ _ _ c => c

/-! ## Entities -/

/-- A visual of a link; only its name is read by the translated code. -/
structure Visual where
  name : String
  deriving DecidableEq, Repr

/-- The inertial values of a link that `ParseSdfLink` copies to the stage. -/
structure Inertial where
  mass : ℚ
  ixx : ℚ
  iyy : ℚ
  izz : ℚ
  pose : Pose3d
  deriving DecidableEq, Repr

/-- Modelled from the spec: the record behind `sdf::Link` (Link.cc is not among the translated
files).  Section 3 of the specification gives an entity a `name`, a `declaredPose` and a
`poseRelativeTo`; the inertial values and the visuals are what `ParseSdfLink` reads from a link;
the graph pointer is the share a link holds of the relative-pose graph of its model, set by
`Link::SetPoseRelativeToGraph`; `none` is an unset pointer. -/
structure Link where
  name : String
  pose : Pose3d
  poseRelativeTo : String
  inertial : Inertial
  visuals : List Visual
  poseRelativeToGraph : Option Nat
  deriving DecidableEq, Repr

/-- Modelled from the spec: the record behind `sdf::Joint` (Joint.cc is not among the translated
files): a name, the names of the parent and child links, a declared pose and its frame. -/
structure Joint where
  name : String
  parentLinkName : String
  childLinkName : String
  pose : Pose3d
  poseRelativeTo : String
  deriving DecidableEq, Repr

/-- Modelled from the spec: the record behind `sdf::Frame` (Frame.cc is not among the translated
files): a name, the `attachedTo` target, a declared pose and its frame. -/
structure Frame where
  name : String
  attachedTo : String
  pose : Pose3d
  poseRelativeTo : String
  deriving DecidableEq, Repr

/-- Modelled from the spec: `Link::SetPoseRelativeToGraph` stores the shared graph pointer in
the link and changes nothing else of it. -/
def Link.SetPoseRelativeToGraph (l : Link) (g : Option Nat) : Link :=
  { l with poseRelativeToGraph := g }

/-! ## Graphs (sdf/FrameSemantics.hh) -/

/-- The kind tag of a graph node. -/
inductive NodeKind where
  | model
  | link
  | joint
  | frame
  deriving DecidableEq, Repr

/-- Modelled from the spec: the kinematic graph of section 4.3, one vertex per link and one edge
`(parent, child, joint name)` per joint. -/
structure KinematicGraph where
  vertices : List String
  edges : List (String × String × String)
  deriving DecidableEq, Repr

/-- Modelled from the spec: the attachment graph of section 4.1, named nodes with a kind tag and
structural edges `(from, to)` without payload. -/
structure FrameAttachedToGraph where
  vertices : List (String × NodeKind)
  edges : List (String × String)
  deriving DecidableEq, Repr

/-- Modelled from the spec: the relative-pose graph of section 4.2, named nodes with a kind tag
and edges `(from, to, pose)` carrying the declared pose of `from` relative to `to`. -/
structure PoseRelativeToGraph where
  vertices : List (String × NodeKind)
  edges : List (String × String × Pose3d)
  deriving DecidableEq, Repr

/-- A default-constructed kinematic graph. -/
def KinematicGraph.empty : KinematicGraph := ⟨[], []⟩

/-- A default-constructed attachment graph. -/
def FrameAttachedToGraph.empty : FrameAttachedToGraph := ⟨[], []⟩

/-- A default-constructed relative-pose graph. -/
def PoseRelativeToGraph.empty : PoseRelativeToGraph := ⟨[], []⟩

/-- The heap of relative-pose graphs owned through `std::shared_ptr`; an address is an index. -/
abbrev Heap := List PoseRelativeToGraph

/-! ## sdf::ModelPrivate and sdf::Model (Model.cc) -/

/-- The class `sdf::ModelPrivate` of Model.cc, field by field, with the default member
initialisers as defaults. -/
structure ModelPrivate where
  name : String := ""
  isStatic : Bool := false
  selfCollide : Bool := false
  allowAutoDisable : Bool := true
  enableWind : Bool := false
  canonicalLink : String := ""
  pose : Pose3d := Pose3d.Zero
  poseRelativeTo : String := ""
  links : List Link := []
  joints : List Joint := []
  frames : List Frame := []
  sdf : Option Element := none
  kinematicGraph : KinematicGraph := KinematicGraph.empty
  frameAttachedToGraph : FrameAttachedToGraph := FrameAttachedToGraph.empty
  poseRelativeToGraph : Option Nat := none

/-- The constructor `Model::Model()`: a fresh `ModelPrivate`. -/
def Model.new : ModelPrivate := {}

/-! ## Collaborators of Model::Load -/

/-- The functions `Model::Load` calls whose bodies live outside Model.cc (Element.cc, Utils.cc,
Utils.hh, FrameSemantics.cc).  An out-parameter is an argument and a result component.

* `HasAttribute e key`, `Get_string e key dflt`, `Get_bool e key dflt`: the accessors of
  `sdf::Element`; `Get` returns the pair (value, found).
* `loadName e name`: returns the new content of `name` and the success flag.
* `loadPose e pose frame`: returns the new contents of `pose` and `frame` and the success flag.
* `loadUniqueRepeated_X e tag objs`: the instance of `loadUniqueRepeated<X>`; returns the new
  content of the vector `objs` and the errors.
* `buildXGraph out model`: returns the new content of the graph `out` and the errors; the
  model is read only. -/
structure Collaborators where
  HasAttribute : Element → String → Bool
  Get_string : Element → String → String → String × Bool
  Get_bool : Element → String → Bool → Bool × Bool
  loadName : Element → String → String × Bool
  loadPose : Element → Pose3d → String → (Pose3d × String) × Bool
  loadUniqueRepeated_Link : Element → String → List Link → List Link × Errors
  loadUniqueRepeated_Joint : Element → String → List Joint → List Joint × Errors
  loadUniqueRepeated_Frame : Element → String → List Frame → List Frame × Errors
  buildKinematicGraph : KinematicGraph → ModelPrivate → KinematicGraph × Errors
  buildFrameAttachedToGraph : FrameAttachedToGraph → ModelPrivate → FrameAttachedToGraph × Errors
  buildPoseRelativeToGraph : PoseRelativeToGraph → ModelPrivate → PoseRelativeToGraph × Errors

/-- The calls `Model::Load` makes that add entities to the model or build a graph, recorded in
program order.  `loaded tag` is a call of `loadUniqueRepeated` for the child tag `tag`;
`shared i` is the call of `SetPoseRelativeToGraph` on the link of index `i`. -/
inductive LoadStep where
  | loaded (tag : String)
  | builtKinematicGraph
  | builtFrameAttachedToGraph
  | builtPoseRelativeToGraph
  | shared (i : Nat)
  deriving DecidableEq, Repr

/-- What a call of `Model::Load` leaves behind: the returned errors, the model, the heap of
shared graphs, and the record of the calls made. -/
structure LoadResult where
  errors : Errors
  model : ModelPrivate
  heap : Heap
  steps : List LoadStep

/-- The message of the error of Model.cc line 112. -/
def Model.msgIncorrectType : String :=
  "Attempting to load a Model, but the provided SDF element is not a <model>."

/-- The message of the error of Model.cc line 121. -/
def Model.msgNameMissing : String :=
  "A model name is required, but the name is not set."

/-- Lines 118 to 123 of `Model::Load`: read the name; a missing name is an error. -/
def Model.Load.readName (D : Collaborators) (m : ModelPrivate) (_sdf : Element) :
    ModelPrivate × Errors :=
  let rName := D.loadName _sdf m.name
  ({ m with name := rName.1 },
    if !rName.2 then [⟨ErrorCode.ATTRIBUTE_MISSING, Model.msgNameMissing⟩] else [])

/-- Lines 125 to 133 of `Model::Load`: read the `canonical_link` attribute. -/
def Model.Load.readCanonicalLink (D : Collaborators) (m : ModelPrivate) (_sdf : Element) :
    ModelPrivate :=
  if D.HasAttribute _sdf "canonical_link" then
    let pair := D.Get_string _sdf "canonical_link" ""
    if pair.2 then { m with canonicalLink := pair.1 } else m
  else m

/-- Lines 135 to 142 of `Model::Load`: read the four flags. -/
def Model.Load.readFlags (D : Collaborators) (m : ModelPrivate) (_sdf : Element) :
    ModelPrivate :=
  { m with
    isStatic := (D.Get_bool _sdf "static" false).1,
    selfCollide := (D.Get_bool _sdf "self_collide" false).1,
    allowAutoDisable := (D.Get_bool _sdf "allow_auto_disable" true).1,
    enableWind := (D.Get_bool _sdf "enable_wind" false).1 }

/-- Lines 144 and 145 of `Model::Load`: load the pose; the return value of `loadPose` is
ignored. -/
def Model.Load.readPose (D : Collaborators) (m : ModelPrivate) (_sdf : Element) :
    ModelPrivate :=
  let rPose := D.loadPose _sdf m.pose m.poseRelativeTo
  { m with pose := rPose.1.1, poseRelativeTo := rPose.1.2 }

/-- Lines 147 to 150 of `Model::Load`: load all the links. -/
def Model.Load.loadLinks (D : Collaborators) (m : ModelPrivate) (_sdf : Element) :
    ModelPrivate × Errors :=
  let linkLoadErrors := D.loadUniqueRepeated_Link _sdf "link" m.links
  ({ m with links := linkLoadErrors.1 }, linkLoadErrors.2)

/-- Lines 152 to 155 of `Model::Load`: load all the joints. -/
def Model.Load.loadJoints (D : Collaborators) (m : ModelPrivate) (_sdf : Element) :
    ModelPrivate × Errors :=
  let jointLoadErrors := D.loadUniqueRepeated_Joint _sdf "joint" m.joints
  ({ m with joints := jointLoadErrors.1 }, jointLoadErrors.2)

/-- Lines 157 to 160 of `Model::Load`: load all the frames. -/
def Model.Load.loadFrames (D : Collaborators) (m : ModelPrivate) (_sdf : Element) :
    ModelPrivate × Errors :=
  let frameLoadErrors := D.loadUniqueRepeated_Frame _sdf "frame" m.frames
  ({ m with frames := frameLoadErrors.1 }, frameLoadErrors.2)

/-- Lines 163 to 166 of `Model::Load`: the kinematic graph member is handed to the builder by
reference; the errors the builder returns are dropped. -/
def Model.Load.buildKinematic (D : Collaborators) (m : ModelPrivate) : ModelPrivate :=
  { m with kinematicGraph := (D.buildKinematicGraph m.kinematicGraph m).1 }

/-- Lines 167 to 170 of `Model::Load`: the attachment graph member is handed to the builder by
reference; the errors the builder returns are dropped. -/
def Model.Load.buildFrameAttachedTo (D : Collaborators) (m : ModelPrivate) : ModelPrivate :=
  { m with frameAttachedToGraph := (D.buildFrameAttachedToGraph m.frameAttachedToGraph m).1 }

/-- Line 172 of `Model::Load`: `std::make_shared` allocates a fresh, empty graph at the next
address and the model pointer is set to it. -/
def Model.Load.makeShared (m : ModelPrivate) (h : Heap) : ModelPrivate × Heap :=
  ({ m with poseRelativeToGraph := some h.length }, h ++ [PoseRelativeToGraph.empty])

/-- Lines 173 to 176 of `Model::Load`: the graph the model pointer designates is handed to the
builder by reference; the errors the builder returns are dropped.  A null pointer cannot occur
after line 172; the heap is then left as it is. -/
def Model.Load.buildPoseRelativeTo (D : Collaborators) (m : ModelPrivate) (h : Heap) : Heap :=
  match m.poseRelativeToGraph with
  | some addr =>
    match h.get? addr with
    | some g => h.set addr (D.buildPoseRelativeToGraph g m).1
    | none => h
  | none => h

/-- Lines 177 to 180 of `Model::Load`: every link receives the graph pointer of the model. -/
def Model.Load.shareGraph (m : ModelPrivate) : ModelPrivate :=
  { m with links := m.links.map (fun link => link.SetPoseRelativeToGraph m.poseRelativeToGraph) }

/-- Lines 118 to 160 of `Model::Load`: the name, the attributes, the pose and the three entity
lists are read from the element, in this order; the result is the model as it stands when the
first graph builder is called, with the errors pushed so far. -/
def Model.Load.readDocument (D : Collaborators) (m : ModelPrivate) (_sdf : Element) :
    ModelPrivate × Errors :=
  let r1 := Model.Load.readName D m _sdf
  let m2 := Model.Load.readCanonicalLink D r1.1 _sdf
  let m3 := Model.Load.readFlags D m2 _sdf
  let m4 := Model.Load.readPose D m3 _sdf
  let r5 := Model.Load.loadLinks D m4 _sdf
  let r6 := Model.Load.loadJoints D r5.1 _sdf
  let r7 := Model.Load.loadFrames D r6.1 _sdf
  (r7.1, r1.2 ++ r5.2 ++ r6.2 ++ r7.2)

/-- The steps of a call of `Model::Load` that passes the element-type check, for a model that
ends up with `n` links. -/
def Model.Load.stepsTaken (n : Nat) : List LoadStep :=
  [LoadStep.loaded "link", LoadStep.loaded "joint", LoadStep.loaded "frame",
    LoadStep.builtKinematicGraph, LoadStep.builtFrameAttachedToGraph,
    LoadStep.builtPoseRelativeToGraph] ++ (List.range n).map LoadStep.shared

/-- The function `Errors Model::Load(ElementPtr _sdf)`, Model.cc lines 102 to 183, statement by
statement.  `m` is `*this->dataPtr` and `h` the heap before the call. -/
def Model.Load (D : Collaborators) (m : ModelPrivate) (h : Heap) (_sdf : Element) :
    LoadResult :=
  let m0 : ModelPrivate := { m with sdf := some _sdf }
  if _sdf.GetName ≠ "model" then
    { errors := [⟨ErrorCode.ELEMENT_INCORRECT_TYPE, Model.msgIncorrectType⟩],
      model := m0, heap := h, steps := [] }
  else
    let r7 := Model.Load.readDocument D m0 _sdf
    let m8 := Model.Load.buildKinematic D r7.1
    let m9 := Model.Load.buildFrameAttachedTo D m8
    let r10 := Model.Load.makeShared m9 h
    let h11 := Model.Load.buildPoseRelativeTo D r10.1 r10.2
    let m12 := Model.Load.shareGraph r10.1
    { errors := r7.2, model := m12, heap := h11,
      steps := Model.Load.stepsTaken m12.links.length }

/-! ### Getters and setters (Model.cc lines 185 to 405) -/

/-- The getter `Model::Name`. -/
def Model.Name (m : ModelPrivate) : String := m.name

/-- The setter `Model::SetName`. -/
def Model.SetName (m : ModelPrivate) (_name : String) : ModelPrivate :=
  { m with name := _name }

/-- The getter `Model::Static`. -/
def Model.Static (m : ModelPrivate) : Bool := m.isStatic

/-- The setter `Model::SetStatic`. -/
def Model.SetStatic (m : ModelPrivate) (_static : Bool) : ModelPrivate :=
  { m with isStatic := _static }

/-- The getter `Model::SelfCollide`. -/
def Model.SelfCollide (m : ModelPrivate) : Bool := m.selfCollide

/-- The setter `Model::SetSelfCollide`. -/
def Model.SetSelfCollide (m : ModelPrivate) (_selfCollide : Bool) : ModelPrivate :=
  { m with selfCollide := _selfCollide }

/-- The getter `Model::AllowAutoDisable`. -/
def Model.AllowAutoDisable (m : ModelPrivate) : Bool := m.allowAutoDisable

/-- The setter `Model::SetAllowAutoDisable`. -/
def Model.SetAllowAutoDisable (m : ModelPrivate) (_allowAutoDisable : Bool) : ModelPrivate :=
  { m with allowAutoDisable := _allowAutoDisable }

/-- The getter `Model::EnableWind`. -/
def Model.EnableWind (m : ModelPrivate) : Bool := m.enableWind

/-- The setter `Model::SetEnableWind`. -/
def Model.SetEnableWind (m : ModelPrivate) (_enableWind : Bool) : ModelPrivate :=
  { m with enableWind := _enableWind }

/-- The getter `Model::LinkCount`. -/
def Model.LinkCount (m : ModelPrivate) : Nat := m.links.length

/-- The getter `Model::LinkByIndex`; `none` is the null pointer. -/
def Model.LinkByIndex (m : ModelPrivate) (_index : Nat) : Option Link :=
  if _index < m.links.length then m.links.get? _index else none

/-- The loop of `Model::LinkNameExists` over the links. -/
def Model.LinkNameExists.loop (_name : String) : List Link → Bool
  | [] => false
  | l :: rest => if l.name = _name then true else Model.LinkNameExists.loop _name rest

/-- The function `Model::LinkNameExists`. -/
def Model.LinkNameExists (m : ModelPrivate) (_name : String) : Bool :=
  Model.LinkNameExists.loop _name m.links

/-- The getter `Model::JointCount`. -/
def Model.JointCount (m : ModelPrivate) : Nat := m.joints.length

/-- The getter `Model::JointByIndex`; `none` is the null pointer. -/
def Model.JointByIndex (m : ModelPrivate) (_index : Nat) : Option Joint :=
  if _index < m.joints.length then m.joints.get? _index else none

/-- The loop of `Model::JointNameExists` over the joints. -/
def Model.JointNameExists.loop (_name : String) : List Joint → Bool
  | [] => false
  | j :: rest => if j.name = _name then true else Model.JointNameExists.loop _name rest

/-- The function `Model::JointNameExists`. -/
def Model.JointNameExists (m : ModelPrivate) (_name : String) : Bool :=
  Model.JointNameExists.loop _name m.joints

/-- The loop of `Model::JointByName`: the first joint of that name, if any. -/
def Model.JointByName.loop (_name : String) : List Joint → Option Joint
  | [] => none
  | j :: rest => if j.name = _name then some j else Model.JointByName.loop _name rest

/-- The function `Model::JointByName`; `none` is the null pointer. -/
def Model.JointByName (m : ModelPrivate) (_name : String) : Option Joint :=
  Model.JointByName.loop _name m.joints

/-- The getter `Model::FrameCount`. -/
def Model.FrameCount (m : ModelPrivate) : Nat := m.frames.length

/-- The getter `Model::FrameByIndex`; `none` is the null pointer. -/
def Model.FrameByIndex (m : ModelPrivate) (_index : Nat) : Option Frame :=
  if _index < m.frames.length then m.frames.get? _index else none

/-- The loop of `Model::FrameNameExists` over the frames. -/
def Model.FrameNameExists.loop (_name : String) : List Frame → Bool
  | [] => false
  | f :: rest => if f.name = _name then true else Model.FrameNameExists.loop _name rest

/-- The function `Model::FrameNameExists`. -/
def Model.FrameNameExists (m : ModelPrivate) (_name : String) : Bool :=
  Model.FrameNameExists.loop _name m.frames

/-- The loop of `Model::FrameByName`: the first frame of that name, if any. -/
def Model.FrameByName.loop (_name : String) : List Frame → Option Frame
  | [] => none
  | f :: rest => if f.name = _name then some f else Model.FrameByName.loop _name rest

/-- The function `Model::FrameByName`; `none` is the null pointer. -/
def Model.FrameByName (m : ModelPrivate) (_name : String) : Option Frame :=
  Model.FrameByName.loop _name m.frames

/-- The getter `Model::CanonicalLinkName`. -/
def Model.CanonicalLinkName (m : ModelPrivate) : String := m.canonicalLink

/-- The setter `Model::SetCanonicalLinkName`. -/
def Model.SetCanonicalLinkName (m : ModelPrivate) (_canonicalLink : String) : ModelPrivate :=
  { m with canonicalLink := _canonicalLink }

/-- The getter `Model::Pose`. -/
def Model.Pose (m : ModelPrivate) : Pose3d := m.pose

/-- The getter `Model::PoseRelativeTo`. -/
def Model.PoseRelativeTo (m : ModelPrivate) : String := m.poseRelativeTo

/-- The setter `Model::SetPose`. -/
def Model.SetPose (m : ModelPrivate) (_pose : Pose3d) : ModelPrivate :=
  { m with pose := _pose }

/-- The setter `Model::SetPoseRelativeTo`. -/
def Model.SetPoseRelativeTo (m : ModelPrivate) (_frame : String) : ModelPrivate :=
  { m with poseRelativeTo := _frame }

/-- The loop of `Model::LinkByName`: the first link of that name, if any. -/
def Model.LinkByName.loop (_name : String) : List Link → Option Link
  | [] => none
  | l :: rest => if l.name = _name then some l else Model.LinkByName.loop _name rest

/-- The function `Model::LinkByName`; `none` is the null pointer. -/
def Model.LinkByName (m : ModelPrivate) (_name : String) : Option Link :=
  Model.LinkByName.loop _name m.links

/-- The getter `Model::Element`. -/
def Model.Element (m : ModelPrivate) : Option Element := m.sdf

/-! ## The collaborators, modelled from the specification -/

namespace Modelled

/-- Modelled from the spec: `Element::HasAttribute` (Element.cc is not among the translated
files): whether the element carries an attribute of that key. -/
def HasAttribute (e : Element) (key : String) : Bool :=
  e.attributes.any (fun a => a.1 == key)

/-- The first child element with the given tag, `Element::GetElement`. -/
def findChild (e : Element) (tag : String) : Option Element :=
  e.children.find? (fun c => c.GetName == tag)

/-- Modelled from the spec: `Element::Get<std::string>(key, default)` (Element.cc is not among
the translated files): the attribute of that key, else the string value of the first child of
that tag, else the default with the flag `false`. -/
def Get_string (e : Element) (key : String) (dflt : String) : String × Bool :=
  match e.attributes.lookup key with
  | some v => (v, true)
  | none =>
    match findChild e key with
    | some c =>
      match c.value with
      | Param.text v => (v, true)
      | _ => (dflt, false)
    | none => (dflt, false)

/-- Modelled from the spec: `Element::Get<bool>(key, default)` (Element.cc is not among the
translated files): the boolean value of the first child of that tag, else the default with the
flag `false`. -/
def Get_bool (e : Element) (key : String) (dflt : Bool) : Bool × Bool :=
  match findChild e key with
  | some c =>
    match c.value with
    | Param.flag b => (b, true)
    | _ => (dflt, false)
  | none => (dflt, false)

/-- Modelled from the spec: `loadName` (Utils.cc is not among the translated files): the `name`
attribute is stored in the out-parameter; the result tells whether it was present. -/
def loadName (e : Element) (_name : String) : String × Bool :=
  Get_string e "name" ""

/-- Modelled from the spec: `loadPose` (Utils.cc is not among the translated files).  Section 3
of the specification: the declared pose may be absent, and `relative_to` is optional.  Without a
`pose` child holding a pose value the out-parameters keep their contents and the result is
`false`. -/
def loadPose (e : Element) (_pose : Pose3d) (_frame : String) : (Pose3d × String) × Bool :=
  match findChild e "pose" with
  | some c =>
    match c.value with
    | Param.pose p => ((p, (Get_string c "relative_to" "").1), true)
    | _ => ((_pose, _frame), false)
  | none => ((_pose, _frame), false)

/-- The error a nameless entity element yields. -/
def nameMissing (kind : String) : Error :=
  ⟨ErrorCode.ATTRIBUTE_MISSING, "A " ++ kind ++ " name is required, but the name is not set."⟩

/-- Modelled from the spec: `Link::Load` (Link.cc is not among the translated files): the flat
record of section 3 read from a `link` element. -/
def Link.Load (e : Element) : Link × Errors :=
  let rName := loadName e ""
  let rPose := loadPose e Pose3d.Zero ""
  ({ name := rName.1, pose := rPose.1.1, poseRelativeTo := rPose.1.2,
     inertial := ⟨1, 1, 1, 1, Pose3d.Zero⟩,
     visuals := (e.children.filter (fun c => c.GetName == "visual")).map
       (fun c => ⟨(Get_string c "name" "").1⟩),
     poseRelativeToGraph := none },
   if rName.2 then [] else [nameMissing "link"])

/-- Modelled from the spec: `Joint::Load` (Joint.cc is not among the translated files): the flat
record read from a `joint` element; the parent and child link names are required. -/
def Joint.Load (e : Element) : Joint × Errors :=
  let rName := loadName e ""
  let rParent := Get_string e "parent" ""
  let rChild := Get_string e "child" ""
  let rPose := loadPose e Pose3d.Zero ""
  ({ name := rName.1, parentLinkName := rParent.1, childLinkName := rChild.1,
     pose := rPose.1.1, poseRelativeTo := rPose.1.2 },
   (if rName.2 then [] else [nameMissing "joint"])
   ++ (if rParent.2 then [] else [⟨ErrorCode.ELEMENT_MISSING, "The parent element is missing."⟩])
   ++ (if rChild.2 then [] else [⟨ErrorCode.ELEMENT_MISSING, "The child element is missing."⟩]))

/-- Modelled from the spec: `Frame::Load` (Frame.cc is not among the translated files): the flat
record read from a `frame` element; `attached_to` is optional. -/
def Frame.Load (e : Element) : Frame × Errors :=
  let rName := loadName e ""
  let rPose := loadPose e Pose3d.Zero ""
  ({ name := rName.1, attachedTo := (Get_string e "attached_to" "").1,
     pose := rPose.1.1, poseRelativeTo := rPose.1.2 },
   if rName.2 then [] else [nameMissing "frame"])

/-- The error for a second entity of one kind with a name already taken. -/
def duplicateName (tag : String) (name : String) : Error :=
  ⟨ErrorCode.DuplicateName, tag ++ " with name[" ++ name ++ "] already exists."⟩

/-- One round of the loop of `loadUniqueRepeated`: load the child; keep it unless an object of
that name is already in the vector, in which case a `DuplicateName` error is recorded; the
errors of the child load are kept in both cases and the loop goes on. -/
def loadUniqueRepeated.step {α : Type} (load : Element → α × Errors) (nameOf : α → String)
    (tag : String) (acc : List α × Errors) (c : Element) : List α × Errors :=
  let r := load c
  if acc.1.any (fun o => nameOf o == nameOf r.1) then
    (acc.1, acc.2 ++ [duplicateName tag (nameOf r.1)] ++ r.2)
  else
    (acc.1 ++ [r.1], acc.2 ++ r.2)

/-- Modelled from the spec: `loadUniqueRepeated<Class>` (Utils.hh is not among the translated
files).  Its call sites in `Model::Load` give it one element, ONE child tag and the vector of
ONE class.  It walks the children with that tag in document order ("document-tree walking to
find repeated child elements", section 1) and appends each loaded object to the vector; two
objects of that class with one name yield `DuplicateName` and the load continues (scenario of
section 8).  It sees no object of another class. -/
def loadUniqueRepeated {α : Type} (load : Element → α × Errors) (nameOf : α → String)
    (_sdf : Element) (_sdfName : String) (_objs : List α) : List α × Errors :=
  (_sdf.children.filter (fun c => c.GetName == _sdfName)).foldl
    (loadUniqueRepeated.step load nameOf _sdfName) (_objs, [])

/-! ### The graph builders (sections 4.1 to 4.3 and 7 of the specification) -/

/-- The error naming a joint whose endpoint is not a link of the model. -/
def unresolvedJoint (j : Joint) (role : String) (target : String) : Error :=
  ⟨ErrorCode.UnresolvedReference,
    role ++ " link [" ++ target ++ "] of joint [" ++ j.name ++ "] not found in model."⟩

/-- Whether a joint endpoint names a vertex of the graph or the literal world link. -/
def resolvesLink (g : KinematicGraph) (n : String) : Bool :=
  n == "world" || g.vertices.contains n

/-- One edge per joint, parent to child, labelled with the joint name.  An endpoint that does not
resolve is an error naming the joint, and aborts the construction where it stands. -/
def buildKinematicGraph.addJoints (g : KinematicGraph) : List Joint → KinematicGraph × Errors
  | [] => (g, [])
  | j :: js =>
    if !resolvesLink g j.parentLinkName then (g, [unresolvedJoint j "parent" j.parentLinkName])
    else if !resolvesLink g j.childLinkName then (g, [unresolvedJoint j "child" j.childLinkName])
    else
      buildKinematicGraph.addJoints
        { g with edges := g.edges ++ [(j.parentLinkName, j.childLinkName, j.name)] } js

/-- The links that are the child of no edge. -/
def rootLinks (g : KinematicGraph) : List String :=
  g.vertices.filter (fun v => !g.edges.any (fun e => e.2.1 == v))

/-- The root rule of section 4.3: a model that is not static must have exactly one link that is
no child; otherwise a structural error is reported. -/
def buildKinematicGraph.rootErrors (isStatic : Bool) (g : KinematicGraph) : Errors :=
  if isStatic then []
  else
    match rootLinks g with
    | [] => [⟨ErrorCode.MissingRoot, "The model has no root link."⟩]
    | [_] => []
    | _ => [⟨ErrorCode.AmbiguousRoot, "The model has more than one root link."⟩]

/-- Modelled from the spec: `buildKinematicGraph` (FrameSemantics.cc is not among the translated
files), section 4.3: one node per link, then one edge per joint; an unresolved endpoint is an
error naming the joint and aborts the construction (section 7); the root rule is reported
without preventing the construction.  The graph is built in the out-parameter. -/
def buildKinematicGraph (_out : KinematicGraph) (_model : ModelPrivate) :
    KinematicGraph × Errors :=
  let g : KinematicGraph := { _out with vertices := _out.vertices ++ _model.links.map (·.name) }
  let r := buildKinematicGraph.addJoints g _model.joints
  if r.2.isEmpty then (r.1, buildKinematicGraph.rootErrors _model.isStatic r.1) else r

/-- The error for a node whose name is already a node of the scope, whatever its kind. -/
def duplicateNode (name : String) : Error :=
  ⟨ErrorCode.DuplicateName, "Non-unique name [" ++ name ++ "] detected in model."⟩

/-- Add named nodes one by one.  A name that is already a node of the graph, of whatever kind,
is a `DuplicateName` error and aborts the construction. -/
def addNodes (vs : List (String × NodeKind)) :
    List (String × NodeKind) → List (String × NodeKind) × Errors
  | [] => (vs, [])
  | n :: ns =>
    if vs.any (fun v => v.1 == n.1) then (vs, [duplicateNode n.1])
    else addNodes (vs ++ [n]) ns

/-- The kind of a named node, when the name is a node. -/
def kindOf (vs : List (String × NodeKind)) (n : String) : Option NodeKind :=
  vs.lookup n

/-- The canonical link: the declared one, or the first link when none is declared. -/
def canonicalLinkOf (m : ModelPrivate) : String :=
  if m.canonicalLink ≠ "" then m.canonicalLink
  else match m.links with
    | [] => ""
    | l :: _ => l.name

/-- One attachment edge per frame, to its `attachedTo` target or to the canonical link when it
declares none.  A target that is no node is an error naming the frame and the target, and aborts
the construction. -/
def buildFrameAttachedToGraph.addEdges (canonical : String) (g : FrameAttachedToGraph) :
    List Frame → FrameAttachedToGraph × Errors
  | [] => (g, [])
  | f :: fs =>
    let target := if f.attachedTo = "" then canonical else f.attachedTo
    if (kindOf g.vertices target).isNone then
      (g, [⟨ErrorCode.UnresolvedReference,
        "attached_to [" ++ target ++ "] of frame [" ++ f.name ++ "] not found in model."⟩])
    else
      buildFrameAttachedToGraph.addEdges canonical { g with edges := g.edges ++ [(f.name, target)] }
        fs

/-- Follow attachment edges from a node until a link is reached, within `fuel` hops. -/
def walkAttached (g : FrameAttachedToGraph) : Nat → String → Option String
  | fuel, n =>
    if kindOf g.vertices n = some NodeKind.link then some n
    else
      match fuel with
      | 0 => none
      | fuel + 1 =>
        match g.edges.lookup n with
        | some t => walkAttached g fuel t
        | none => none

/-- Modelled from the spec: `ResolveAttachedLink` of section 4.1: the link a name is attached
to, found within as many hops as there are nodes. -/
def ResolveAttachedLink (g : FrameAttachedToGraph) (name : String) :
    Except Error String :=
  match walkAttached g g.vertices.length name with
  | some l => Except.ok l
  | none => Except.error ⟨ErrorCode.CyclicReference,
      "attached_to of [" ++ name ++ "] does not reach a link."⟩

/-- The cycle errors of the frames, in order. -/
def buildFrameAttachedToGraph.cycleErrors (g : FrameAttachedToGraph) (fs : List Frame) :
    Errors :=
  fs.filterMap (fun f =>
    match ResolveAttachedLink g f.name with
    | Except.ok _ => none
    | Except.error e => some e)

/-- Modelled from the spec: `buildFrameAttachedToGraph` (FrameSemantics.cc is not among the
translated files), section 4.1: links are terminal nodes, each frame is a node with one edge to
its target; names are unique across the kinds of the scope (section 3), targets must exist, and
every frame must reach a link within a bounded number of hops.  The graph is built in the
out-parameter. -/
def buildFrameAttachedToGraph (_out : FrameAttachedToGraph) (_model : ModelPrivate) :
    FrameAttachedToGraph × Errors :=
  let nodes := addNodes _out.vertices
    (_model.links.map (fun l => (l.name, NodeKind.link))
      ++ _model.frames.map (fun f => (f.name, NodeKind.frame)))
  let g : FrameAttachedToGraph := { _out with vertices := nodes.1 }
  if !nodes.2.isEmpty then (g, nodes.2)
  else
    let r := buildFrameAttachedToGraph.addEdges (canonicalLinkOf _model) g _model.frames
    if !r.2.isEmpty then r
    else (r.1, buildFrameAttachedToGraph.cycleErrors r.1 _model.frames)

/-- The name of the implicit root node of a scope in the relative-pose graph. -/
def rootName : String := "__model__"

/-- The entities of a model as (name, kind, poseRelativeTo, declared pose), links first, then
joints, then frames. -/
def poseEntities (m : ModelPrivate) : List (String × NodeKind × String × Pose3d) :=
  m.links.map (fun l => (l.name, NodeKind.link, l.poseRelativeTo, l.pose))
  ++ m.joints.map (fun j => (j.name, NodeKind.joint, j.poseRelativeTo, j.pose))
  ++ m.frames.map (fun f => (f.name, NodeKind.frame, f.poseRelativeTo, f.pose))

/-- One relative-pose edge per entity, to its `poseRelativeTo` target or to the scope root when
it declares none, weighted by the declared pose.  A target that is no node is an error naming
the entity and the target, and aborts the construction. -/
def buildPoseRelativeToGraph.addEdges (g : PoseRelativeToGraph) :
    List (String × NodeKind × String × Pose3d) → PoseRelativeToGraph × Errors
  | [] => (g, [])
  | e :: es =>
    let target := if e.2.2.1 = "" then rootName else e.2.2.1
    if (kindOf g.vertices target).isNone then
      (g, [⟨ErrorCode.UnresolvedReference,
        "relative_to [" ++ target ++ "] of [" ++ e.1 ++ "] not found in model."⟩])
    else
      buildPoseRelativeToGraph.addEdges
        { g with edges := g.edges ++ [(e.1, target, e.2.2.2)] } es

/-- The composition and the inversion of poses (`ignition::math::Pose3d`, an external
library). -/
structure PoseAlgebra where
  mul : Pose3d → Pose3d → Pose3d
  inverse : Pose3d → Pose3d

/-- The Hamilton product of the orientations of two poses, as `(w, x, y, z)`. -/
def qmul (a b : ℚ × ℚ × ℚ × ℚ) : ℚ × ℚ × ℚ × ℚ :=
  (a.1 * b.1 - a.2.1 * b.2.1 - a.2.2.1 * b.2.2.1 - a.2.2.2 * b.2.2.2,
   a.1 * b.2.1 + a.2.1 * b.1 + a.2.2.1 * b.2.2.2 - a.2.2.2 * b.2.2.1,
   a.1 * b.2.2.1 - a.2.1 * b.2.2.2 + a.2.2.1 * b.1 + a.2.2.2 * b.2.1,
   a.1 * b.2.2.2 + a.2.1 * b.2.2.1 - a.2.2.1 * b.2.1 + a.2.2.2 * b.1)

/-- The inverse of a quaternion: the conjugate over the squared norm. -/
def qinv (a : ℚ × ℚ × ℚ × ℚ) : ℚ × ℚ × ℚ × ℚ :=
  let n := a.1 * a.1 + a.2.1 * a.2.1 + a.2.2.1 * a.2.2.1 + a.2.2.2 * a.2.2.2
  (a.1 / n, -a.2.1 / n, -a.2.2.1 / n, -a.2.2.2 / n)

/-- The vector `v` rotated by the quaternion `q`. -/
def qrot (q : ℚ × ℚ × ℚ × ℚ) (v : ℚ × ℚ × ℚ) : ℚ × ℚ × ℚ :=
  (qmul (qmul q (0, v.1, v.2.1, v.2.2)) (qinv q)).2

/-- Rigid-transform composition and inversion in exact arithmetic, an instance of the pose
algebra: `mul a b` is the pose of C in A when `a` is the pose of B in A and `b` the pose of C in
B. -/
def rigid : PoseAlgebra where
  mul := fun a b =>
    let t := qrot (a.qw, a.qx, a.qy, a.qz) (b.x, b.y, b.z)
    let q := qmul (a.qw, a.qx, a.qy, a.qz) (b.qw, b.qx, b.qy, b.qz)
    ⟨a.x + t.1, a.y + t.2.1, a.z + t.2.2, q.1, q.2.1, q.2.2.1, q.2.2.2⟩
  inverse := fun a =>
    let q := qinv (a.qw, a.qx, a.qy, a.qz)
    let t := qrot q (a.x, a.y, a.z)
    ⟨-t.1, -t.2.1, -t.2.2, q.1, q.2.1, q.2.2.1, q.2.2.2⟩

/-- Walk the `poseRelativeTo` chain from a node to the scope root within `fuel` hops,
accumulating the transform outward: each hop composes the pose stored on the edge with what has
been accumulated.  The chain of names visited is kept for diagnostics.  The error is
`CyclicReference` when the hops are used up and `PathUnreachable` when the chain ends at a node
that is not the root. -/
def pathToRoot (A : PoseAlgebra) (g : PoseRelativeToGraph) :
    Nat → String → Pose3d → List String → Except Error Pose3d
  | fuel, n, acc, chain =>
    if n = rootName then Except.ok acc
    else
      match fuel with
      | 0 => Except.error ⟨ErrorCode.CyclicReference,
          "relative_to cycle: " ++ " -> ".intercalate (chain ++ [n])⟩
      | fuel + 1 =>
        match g.edges.lookup n with
        | some (t, p) => pathToRoot A g fuel t (A.mul p acc) (chain ++ [n])
        | none => Except.error ⟨ErrorCode.PathUnreachable,
            "no path to the scope root from: " ++ " -> ".intercalate (chain ++ [n])⟩

/-- Modelled from the spec: `Resolve(frameName, relativeToName)` of section 4.2.
`frameName == relativeToName` gives the identity pose without a graph walk; an unresolvable
name gives an error and no pose; an empty `relativeToName` gives the pose relative to the scope
root; otherwise the relative-to path, inverted, is composed with the frame path. -/
def ResolvePose (A : PoseAlgebra) (g : PoseRelativeToGraph) (frameName : String)
    (relativeToName : String) : Except Error Pose3d :=
  if frameName = relativeToName then Except.ok Pose3d.Zero
  else if (kindOf g.vertices frameName).isNone then
    Except.error ⟨ErrorCode.UnresolvedReference, "[" ++ frameName ++ "] not found in graph."⟩
  else if relativeToName ≠ "" ∧ (kindOf g.vertices relativeToName).isNone then
    Except.error ⟨ErrorCode.ATTRIBUTE_INVALID, "[" ++ relativeToName ++ "] not found in graph."⟩
  else
    match pathToRoot A g g.vertices.length frameName Pose3d.Zero [] with
    | Except.error e => Except.error e
    | Except.ok pf =>
      if relativeToName = "" then Except.ok pf
      else
        match pathToRoot A g g.vertices.length relativeToName Pose3d.Zero [] with
        | Except.error e => Except.error e
        | Except.ok pr => Except.ok (A.mul (A.inverse pr) pf)

/-- The cycle errors of the entities, in order: every chain must end at the scope root. -/
def buildPoseRelativeToGraph.cycleErrors (g : PoseRelativeToGraph)
    (es : List (String × NodeKind × String × Pose3d)) : Errors :=
  es.filterMap (fun e =>
    match pathToRoot ⟨fun p _ => p, fun p => p⟩ g g.vertices.length e.1 Pose3d.Zero [] with
    | Except.ok _ => none
    | Except.error err => some err)

/-- Modelled from the spec: `buildPoseRelativeToGraph` (FrameSemantics.cc is not among the
translated files), section 4.2: one node per entity plus the implicit root of the scope, one
edge per entity; names are unique across the kinds of the scope (section 3), targets must exist
and every chain must end at the root.  The graph is built in the out-parameter. -/
def buildPoseRelativeToGraph (_out : PoseRelativeToGraph) (_model : ModelPrivate) :
    PoseRelativeToGraph × Errors :=
  let es := poseEntities _model
  let nodes := addNodes (_out.vertices ++ [(rootName, NodeKind.model)])
    (es.map (fun e => (e.1, e.2.1)))
  let g : PoseRelativeToGraph := { _out with vertices := nodes.1 }
  if !nodes.2.isEmpty then (g, nodes.2)
  else
    let r := buildPoseRelativeToGraph.addEdges g es
    if !r.2.isEmpty then r
    else (r.1, buildPoseRelativeToGraph.cycleErrors r.1 es)

/-- The collaborators of `Model::Load` as modelled from the specification. -/
def collaborators : Collaborators where
  HasAttribute := HasAttribute
  Get_string := Get_string
  Get_bool := Get_bool
  loadName := loadName
  loadPose := loadPose
  loadUniqueRepeated_Link := loadUniqueRepeated Link.Load (fun l => l.name)
  loadUniqueRepeated_Joint := loadUniqueRepeated Joint.Load (fun j => j.name)
  loadUniqueRepeated_Frame := loadUniqueRepeated Frame.Load (fun f => f.name)
  buildKinematicGraph := buildKinematicGraph
  buildFrameAttachedToGraph := buildFrameAttachedToGraph
  buildPoseRelativeToGraph := buildPoseRelativeToGraph

end Modelled

/-! ## Semantic poses (sdf/SemanticPose.hh) -/

/-- Modelled from the spec: the object `Link::SemanticPose()` returns (SemanticPose.cc is not
among the translated files): what a link needs to query the relative-pose graph on its own
(section 6): its name, its declared pose and frame, and its share of the graph. -/
structure SemanticPose where
  name : String
  rawPose : Pose3d
  relativeTo : String
  poseRelativeToGraph : Option Nat
  deriving DecidableEq, Repr

/-- Modelled from the spec: `Link::SemanticPose()`. -/
def Link.SemanticPose (l : Link) : SemanticPose :=
  { name := l.name, rawPose := l.pose, relativeTo := l.poseRelativeTo,
    poseRelativeToGraph := l.poseRelativeToGraph }

/-- The getter `Link::RawPose()`. -/
def Link.RawPose (l : Link) : Pose3d := l.pose

/-- The getter `Link::PoseRelativeTo()`. -/
def Link.PoseRelativeTo (l : Link) : String := l.poseRelativeTo

namespace Modelled

/-- The error of a query through a pointer that designates no graph. -/
def invalidGraph : Error :=
  ⟨ErrorCode.ELEMENT_INVALID, "SemanticPose has invalid pointer to PoseRelativeToGraph."⟩

/-- Modelled from the spec: `SemanticPose::Resolve(pose, resolveTo)` (SemanticPose.cc is not
among the translated files): the query `ResolvePose(name, resolveTo)` of section 6 on the graph
the pointer designates.  On success the out-parameter receives the pose and no error is
returned; on an error the out-parameter keeps its content ("no partial result returned",
section 4.2) and the error is returned. -/
def Resolve (A : PoseAlgebra) (h : Heap) (sp : SemanticPose) (_pose : Pose3d)
    (_resolveTo : String) : Pose3d × Errors :=
  match sp.poseRelativeToGraph with
  | none => (_pose, [invalidGraph])
  | some addr =>
    match h.get? addr with
    | none => (_pose, [invalidGraph])
    | some g =>
      match ResolvePose A g sp.name _resolveTo with
      | Except.ok p => (p, [])
      | Except.error e => (_pose, [e])

end Modelled

end sdf

/-! ## usd::ParseSdfLink (usd/sdf_usd_parser/link.cc) -/

namespace usd

open sdf

/-- What `ParseSdfLink` does to the stage, in program order.  A stage is the sequence of the
operations applied to it. -/
inductive StageOp where
  | DefineXform (path : String)
  | SetPose (pose : Pose3d) (path : String)
  | ApplyRigidBodyAPI (path : String)
  | ApplyMassAPI (path : String)
  | SetMass (path : String) (mass : ℚ)
  | SetDiagonalInertia (path : String) (ixx : ℚ) (iyy : ℚ) (izz : ℚ)
  | SetCenterOfMass (path : String) (x : ℚ) (y : ℚ) (z : ℚ)
  | ParseSdfVisual (visual : Visual) (path : String)
  deriving DecidableEq, Repr

/-- A USD stage, as the sequence of operations applied to it. -/
abbrev Stage := List StageOp

/-- The functions `ParseSdfLink` calls whose bodies live outside link.cc.

* `Resolve sp pose resolveTo`: `sdf::SemanticPose::Resolve`; returns the new content of the
  out-parameter `pose` and the errors.
* `GetPrimAtPath`, `ApplyRigidBodyAPI`, `RigidBodyAPIValid`, `ApplyMassAPI`: whether the
  operation of the USD library yields a valid object on the stage as it stands.
* `ParseSdfVisual visual stage path`: the result of `usd::ParseSdfVisual`. -/
structure Collaborators where
  Resolve : SemanticPose → Pose3d → String → Pose3d × Errors
  GetPrimAtPath : Stage → String → Bool
  ApplyRigidBodyAPI : Stage → String → Bool
  RigidBodyAPIValid : Stage → String → Bool
  ApplyMassAPI : Stage → String → Bool
  ParseSdfVisual : Visual → Stage → String → Bool

/-- What a call of `ParseSdfLink` leaves behind: the stage, the pose resolutions requested from
the graph as (entity, resolve-to) in program order, and the returned flag. -/
structure ParseResult where
  stage : Stage
  resolved : List (String × String)
  ok : Bool
  deriving DecidableEq, Repr

/-- Modelled from the spec: `usd::SetPose(pose, stage, path)` (sdf_usd_parser/utils.hh is not
among the translated files) writes the pose of the prim at `path` to the stage. -/
def SetPose (_pose : Pose3d) (_stage : Stage) (_path : String) : Stage :=
  _stage ++ [StageOp.SetPose _pose _path]

/-- Lines 41 to 51 of `ParseSdfLink`: the pose of the link is written to the stage.  With an
empty `poseRelativeTo` it is the raw pose.  Otherwise a default-constructed pose is handed to
`Resolve` as out-parameter, the errors `Resolve` returns are dropped, and the content of the
out-parameter is written. -/
def ParseSdfLink.writePose (U : Collaborators) (_link : Link) (_stage : Stage) (_path : String)
    (_canonicalLink : String) : Stage × List (String × String) :=
  if _link.PoseRelativeTo = "" then
    (SetPose _link.RawPose _stage _path, [])
  else
    let linkSP := _link.SemanticPose
    let pose : Pose3d := Pose3d.Zero
    let pose := (U.Resolve linkSP pose _canonicalLink).1
    (SetPose pose _stage _path, [(linkSP.name, _canonicalLink)])

/-- Lines 53 to 97 of `ParseSdfLink`: mark the prim as a rigid body and attach the mass
properties; each failure returns `false` and leaves the stage as it stands. -/
def ParseSdfLink.rigidBody (U : Collaborators) (_link : Link) (_stage : Stage)
    (_path : String) : Stage × Bool :=
  if !U.GetPrimAtPath _stage _path then (_stage, false)
  else if !U.ApplyRigidBodyAPI _stage _path then (_stage, false)
  else
    let s1 := _stage ++ [StageOp.ApplyRigidBodyAPI _path]
    if !U.RigidBodyAPIValid s1 _path then (s1, false)
    else if !U.ApplyMassAPI s1 _path then (s1, false)
    else
      (s1 ++ [StageOp.ApplyMassAPI _path,
        StageOp.SetMass _path _link.inertial.mass,
        StageOp.SetDiagonalInertia _path _link.inertial.ixx _link.inertial.iyy
          _link.inertial.izz,
        StageOp.SetCenterOfMass _path _link.inertial.pose.x _link.inertial.pose.y
          _link.inertial.pose.z], true)

/-- Lines 107 to 116 of `ParseSdfLink`: the visuals are converted in order, each under the path
of the link; the first failure returns `false`. -/
def ParseSdfLink.visuals (U : Collaborators) (_path : String) :
    List Visual → Stage → Stage × Bool
  | [], stage => (stage, true)
  | visual :: rest, stage =>
    let visualPath := _path ++ "/" ++ visual.name
    let s1 := stage ++ [StageOp.ParseSdfVisual visual visualPath]
    if !U.ParseSdfVisual visual stage visualPath then (s1, false)
    else ParseSdfLink.visuals U _path rest s1

/-- The function `usd::ParseSdfLink`, link.cc lines 34 to 118. -/
def ParseSdfLink (U : Collaborators) (_link : Link) (_stage : Stage) (_path : String)
    (_rigidBody : Bool) (_canonicalLink : String) : ParseResult :=
  let s0 := _stage ++ [StageOp.DefineXform _path]
  let r1 := ParseSdfLink.writePose U _link s0 _path _canonicalLink
  let r2 := if _rigidBody then ParseSdfLink.rigidBody U _link r1.1 _path else (r1.1, true)
  if !r2.2 then { stage := r2.1, resolved := r1.2, ok := false }
  else
    let r3 := ParseSdfLink.visuals U _path _link.visuals r2.1
    { stage := r3.1, resolved := r1.2, ok := r3.2 }

/-- The poses written to a stage, as (pose, path) in the order they were written. -/
def posesWritten (stage : Stage) : List (Pose3d × String) :=
  stage.filterMap (fun op =>
    match op with
    | StageOp.SetPose pose path => some (pose, path)
    | _ => none)

/-- The collaborators of `ParseSdfLink` with `Resolve` as modelled from the specification over
a heap of graphs; the operations of the USD library succeed. -/
def collaborators (A : Modelled.PoseAlgebra) (h : Heap) : Collaborators where
  Resolve := Modelled.Resolve A h
  GetPrimAtPath := fun _ _ => true
  ApplyRigidBodyAPI := fun _ _ => true
  RigidBodyAPIValid := fun _ _ => true
  ApplyMassAPI := fun _ _ => true
  ParseSdfVisual := fun _ _ _ => true

end usd

/-! ## Example documents -/

namespace sdf.Examples

/-- An element without value and children. -/
def leaf (tag : String) (attrs : List (String × String)) : Element :=
  Element.mk tag attrs Param.empty []

/-- An element holding a string value. -/
def text (tag : String) (v : String) : Element :=
  Element.mk tag [] (Param.text v) []

/-- A `joint` element with its parent and child link names. -/
def joint (name parent child : String) : Element :=
  Element.mk "joint" [("name", name)] Param.empty [text "parent" parent, text "child" child]

/-- A `pose` element with a `relative_to` attribute. -/
def pose (relativeTo : String) (p : Pose3d) : Element :=
  Element.mk "pose" [("relative_to", relativeTo)] (Param.pose p) []

/-- The model "cart" of section 8: links `chassis` and `wheel`, joint `axle`, and the frame
`sensor_mount` attached to `wheel` with a pose relative to `chassis`. -/
def cart : Element :=
  Element.mk "model" [("name", "cart")] Param.empty
    [leaf "link" [("name", "chassis")], leaf "link" [("name", "wheel")],
     joint "axle" "chassis" "wheel",
     Element.mk "frame" [("name", "sensor_mount"), ("attached_to", "wheel")] Param.empty
       [pose "chassis" ⟨1, 2, 3, 1, 0, 0, 0⟩]]

/-- The model "cart" with the child of the joint renamed to a link that does not exist. -/
def cartDangling : Element :=
  Element.mk "model" [("name", "cart")] Param.empty
    [leaf "link" [("name", "chassis")], leaf "link" [("name", "wheel")],
     joint "axle" "chassis" "wheeel"]

/-- A model with two links named `base`, a joint and a frame. -/
def twoBases : Element :=
  Element.mk "model" [("name", "m")] Param.empty
    [leaf "link" [("name", "base")], leaf "link" [("name", "base")],
     joint "j" "base" "base", leaf "frame" [("name", "f")]]

/-- A model whose link `arm` declares a pose relative to a frame that does not exist. -/
def armAstray : Element :=
  Element.mk "model" [("name", "m")] Param.empty
    [leaf "link" [("name", "base")],
     Element.mk "link" [("name", "arm")] Param.empty [pose "nowhere" ⟨1, 2, 3, 1, 0, 0, 0⟩]]

/-- A fresh model after `Load` of a document with the modelled collaborators. -/
def loaded (doc : Element) : LoadResult :=
  Model.Load Modelled.collaborators Model.new [] doc

/-- The model as it stands when `Load` of a document into a fresh model calls the first graph
builder. -/
def beforeGraphs (doc : Element) : ModelPrivate :=
  (Model.Load.readDocument Modelled.collaborators { Model.new with sdf := some doc } doc).1

end sdf.Examples

namespace sdf.Examples

/-- The link `arm` of the model `armAstray` as `Load` leaves it: declared pose `(1, 2, 3)`
relative to the frame `nowhere`, sharing the graph at address 0. -/
def arm : Link :=
  { name := "arm", pose := ⟨1, 2, 3, 1, 0, 0, 0⟩, poseRelativeTo := "nowhere",
    inertial := ⟨1, 1, 1, 1, Pose3d.Zero⟩, visuals := [], poseRelativeToGraph := some 0 }

/-- The link `wheel` of the model "cart" with a pose declared relative to `chassis`, sharing
the graph at address 0. -/
def wheel : Link :=
  { name := "wheel", pose := ⟨0, 1, 0, 1, 0, 0, 0⟩, poseRelativeTo := "chassis",
    inertial := ⟨1, 1, 1, 1, Pose3d.Zero⟩, visuals := [⟨"tyre"⟩], poseRelativeToGraph := some 0 }

end sdf.Examples

namespace sdf

/-- Two models hold the same lists of links, joints and frames, the same element pointer and
the same three graphs. -/
def Model.sameListsAndGraphs (a b : ModelPrivate) : Prop :=
  a.links = b.links ∧ a.joints = b.joints ∧ a.frames = b.frames ∧ a.sdf = b.sdf ∧
  a.kinematicGraph = b.kinematicGraph ∧ a.frameAttachedToGraph = b.frameAttachedToGraph ∧
  a.poseRelativeToGraph = b.poseRelativeToGraph

/-- A model holds the given lists of links, joints and frames. -/
def Model.holds (a : ModelPrivate) (links : List Link) (joints : List Joint)
    (frames : List Frame) : Prop :=
  a.links = links ∧ a.joints = joints ∧ a.frames = frames

end sdf

/-! ## Strings (std::string) and the helpers of ignition::common -/

namespace usd

/-- The search of `std::string::find` from the start of a string: the index of the first
occurrence of `pat` in the characters `s`, counted from `i`; `none` is `std::string::npos`. -/
def findFrom (pat : List Char) : List Char → Nat → Option Nat
  | [], i => if pat = [] then some i else none
  | c :: cs, i => if pat.isPrefixOf (c :: cs) then some i else findFrom pat cs (i + 1)

/-- The call `_str.find(_pat)` of `std::string`. -/
def find (_str : String) (_pat : String) : Option Nat :=
  findFrom _pat.data _str.data 0

/-- The call `_str.erase(pos, len)` of `std::string`: the characters from `pos` on, `len` of
them or as many as there are, are removed. -/
def erase (_str : String) (pos : Nat) (len : Nat) : String :=
  String.mk (_str.data.take pos ++ _str.data.drop (pos + len))

/-- The loop of `strtok_r` behind `ignition::common::split`: the characters are cut at every
delimiter and empty pieces are dropped; `cur` is the piece being read. -/
def splitLoop (delims : List Char) : List Char → List Char → List String
  | [], cur => if cur = [] then [] else [String.mk cur]
  | c :: cs, cur =>
    if c ∈ delims then
      if cur = [] then splitLoop delims cs [] else String.mk cur :: splitLoop delims cs []
    else splitLoop delims cs (cur ++ [c])

/-- The functions of the library ignition::common the translated code calls.

* `split str delim`: `ignition::common::split`, the components of `str`.
* `joinPaths a b`: `ignition::common::joinPaths`. -/
structure Common where
  split : String → String → List String
  joinPaths : String → String → String

/-- The library ignition::common on a system whose path separator is `/`: `split` cuts at the
delimiter characters and drops empty components, `joinPaths` puts one separator between its
arguments. -/
def common : Common where
  split := fun str delim => splitLoop delim.data str.data []
  joinPaths := fun a b => a ++ "/" ++ b

/-! ## usd_parser/utils.cc -/

/-- The loop of `directoryFromUSDPath`, utils.cc lines 40 to 43, with `k` rounds left to run,
the loop variable `i` and the directory built so far.  Each round reads `tokensChild[i+1]`; the
result is `none` when that index is outside of the vector. -/
def directoryFromUSDPath.loop (C : Common) (tokensChild : List String) :
    Nat → Nat → String → Option String
  | 0, _, directoryMesh => some directoryMesh
  | k + 1, i, directoryMesh =>
    match tokensChild.get? (i + 1) with
    | none => none
    | some t => directoryFromUSDPath.loop C tokensChild k (i + 1) (C.joinPaths directoryMesh t)

/-- The function `usd::directoryFromUSDPath`, utils.cc lines 33 to 46.  The loop
`for (i = 1; i < size - 1; ++i)` runs `size - 2` rounds.  The result is `none` when an index is
outside of the vector. -/
def directoryFromUSDPath (C : Common) (_primPath : String) : Option String :=
  let tokensChild := C.split _primPath "/"
  if tokensChild.length > 1 then
    match tokensChild.get? 0 with
    | none => none
    | some t0 => directoryFromUSDPath.loop C tokensChild (tokensChild.length - 1 - 1) 1 t0
  else some ""

/-- The function `usd::removeSubStr`, utils.cc lines 48 to 55; the result is the content of
`_str` after the call.  The string searched for is the constant "/World"; `_substr` gives the
number of characters erased. -/
def removeSubStr (_str : String) (_substr : String) : String :=
  match find _str "/World" with
  | some pos => erase _str pos _substr.length
  | none => _str

end usd

namespace usd

/-- A `pxr::GfVec3f`.  The components are `float`s in the source; the translated code only
copies them, so they are exact rationals here. -/
structure GfVec3f where
  x : ℚ
  y : ℚ
  z : ℚ
  deriving DecidableEq, Repr

/-- A `pxr::GfQuatf`: real part and imaginary parts. -/
structure GfQuatf where
  real : ℚ
  i : ℚ
  j : ℚ
  k : ℚ
  deriving DecidableEq, Repr

/-- What `ParseTransform` reads from a `pxr::UsdPrim` through the USD library.

* `xformOpOrder`: the content of the array after `transforms.Get(&xformOpOrder)`.
* `typeName a`: `GetAttribute(a).GetTypeName().GetCPPTypeName()`.
* `getVec3f a v`, `getVec3d a v`, `getQuatf a q`: the content of a variable of that type
  after `GetAttribute(a).Get(&variable)`, when it held `v` or `q` before.
* `transformTranslation`, `transformRotation`, `transformDiagonal`: for the matrix read from
  the attribute `xformOp:transform`, the results of `ExtractTranslation()`, of
  `ExtractRotationQuat()`, and the entries `[0][0]`, `[1][1]`, `[2][2]`.
* `Euler roll pitch yaw`: the quaternion `ignition::math::Quaterniond::Euler` sets.
* `undefinedQuatd`: the content of a `pxr::GfQuatd` that was declared without a value. -/
structure XformPrim where
  xformOpOrder : List String
  typeName : String → String
  getVec3f : String → GfVec3f → GfVec3f
  getVec3d : String → GfVec3f → GfVec3f
  getQuatf : String → GfQuatf → GfQuatf
  transformTranslation : GfVec3f
  transformRotation : GfQuatf
  transformDiagonal : GfVec3f
  Euler : ℚ → ℚ → ℚ → GfQuatf
  undefinedQuatd : GfQuatf

/-- The tuple `ParseTransform` returns, and its local variables while the loop runs. -/
structure Transform where
  scale : GfVec3f
  translate : GfVec3f
  rotationQuad : GfQuatf
  isScale : Bool
  isTranslate : Bool
  isRotation : Bool
  deriving DecidableEq, Repr

/-- The local variables of `ParseTransform` before the loop, utils.cc lines 195 to 201. -/
def ParseTransform.init : Transform :=
  { scale := ⟨1, 1, 1⟩, translate := ⟨0, 0, 0⟩, rotationQuad := ⟨1, 0, 0, 0⟩,
    isScale := false, isTranslate := false, isRotation := false }

/-- Lines 209 to 227: the operation `xformOp:scale`. -/
def ParseTransform.opScale (P : XformPrim) (t : Transform) : Transform :=
  let scale :=
    if P.typeName "xformOp:scale" = "GfVec3f" then P.getVec3f "xformOp:scale" t.scale
    else if P.typeName "xformOp:scale" = "GfVec3d" then P.getVec3d "xformOp:scale" ⟨1, 1, 1⟩
    else t.scale
  { t with scale := scale, isScale := true }

/-- Lines 228 to 255: the operation `xformOp:rotateZYX`.  The angles are scaled by
`3.1416 / 180` and handed to `Euler` in the order z, y, x. -/
def ParseTransform.opRotateZYX (P : XformPrim) (t : Transform) : Transform :=
  let rotationEuler : GfVec3f :=
    if P.typeName "xformOp:rotateZYX" = "GfVec3f" then
      P.getVec3f "xformOp:rotateZYX" ⟨0, 0, 0⟩
    else if P.typeName "xformOp:rotateZYX" = "GfVec3d" then
      P.getVec3f "xformOp:rotateZYX" ⟨0, 0, 0⟩
    else ⟨0, 0, 0⟩
  let q := P.Euler (rotationEuler.z * (31416 / 10000) / 180)
    (rotationEuler.y * (31416 / 10000) / 180) (rotationEuler.x * (31416 / 10000) / 180)
  { t with rotationQuad := q, isRotation := true }

/-- Lines 256 to 273: the operation `xformOp:translate`. -/
def ParseTransform.opTranslate (P : XformPrim) (t : Transform) : Transform :=
  let translate :=
    if P.typeName "xformOp:translate" = "GfVec3f" then
      P.getVec3f "xformOp:translate" t.translate
    else if P.typeName "xformOp:translate" = "GfVec3d" then
      P.getVec3d "xformOp:translate" ⟨0, 0, 0⟩
    else t.translate
  { t with translate := translate, isTranslate := true }

/-- Lines 274 to 293: the operation `xformOp:orient`.  For an attribute of type `GfQuatd` the
attribute is read into `rotationQuad`, which is then overwritten with the content of
`rotationQuadTmp`, a variable that was never given a value. -/
def ParseTransform.opOrient (P : XformPrim) (t : Transform) : Transform :=
  let rotationQuad :=
    if P.typeName "xformOp:orient" = "GfQuatf" then P.getQuatf "xformOp:orient" t.rotationQuad
    else if P.typeName "xformOp:orient" = "GfQuatd" then P.undefinedQuatd
    else t.rotationQuad
  { t with rotationQuad := rotationQuad, isRotation := true }

/-- Lines 295 to 317: the operation `xformOp:transform`. -/
def ParseTransform.opTransform (P : XformPrim) (_t : Transform) : Transform :=
  { scale := P.transformDiagonal, translate := P.transformTranslation,
    rotationQuad := P.transformRotation, isScale := true, isTranslate := true,
    isRotation := true }

/-- One round of the loop of `ParseTransform`, lines 205 to 318: the chain of `if` and
`else if` on the operation name, then the separate `if` for `xformOp:transform`. -/
def ParseTransform.step (P : XformPrim) (t : Transform) (op : String) : Transform :=
  let t1 :=
    if op = "xformOp:scale" then ParseTransform.opScale P t
    else if op = "xformOp:rotateZYX" then ParseTransform.opRotateZYX P t
    else if op = "xformOp:translate" then ParseTransform.opTranslate P t
    else if op = "xformOp:orient" then ParseTransform.opOrient P t
    else t
  if op = "xformOp:transform" then ParseTransform.opTransform P t1 else t1

/-- The function `usd::ParseTransform`, utils.cc lines 188 to 320. -/
def ParseTransform (P : XformPrim) : Transform :=
  P.xformOpOrder.foldl (ParseTransform.step P) ParseTransform.init

end usd

/-! ## usd::parseUSD (usd/usd_parser/parser_usd.cc) -/

namespace usd.Parser

/-- A `usd::Link` of the parsed model.  parser_usd.cc reads and writes its `name` only; what
`ParseLinks` gathers in a link is kept as the list of the prim paths parsed into it. -/
structure Link where
  name : String
  prims : List String
  deriving DecidableEq, Repr

/-- A `usd::Joint` of the parsed model: its name and the names of the links it connects. -/
structure Joint where
  name : String
  parent_link_name : String
  child_link_name : String
  deriving DecidableEq, Repr

/-- A `usd::ModelInterface`: the name, the map of links and the map of joints, each a
`std::map` from a string key, and the root link once `initRoot` has found it.  A map is the
list of its entries, with at most one entry per key. -/
structure ModelInterface where
  name_ : String
  links_ : List (String × Link)
  joints_ : List (String × Joint)
  root_link_ : Option String
  deriving DecidableEq, Repr

/-- The call `map.find(key)` of `std::map`; `none` is `end()`. -/
def mapFind {β : Type} (m : List (String × β)) (key : String) : Option β :=
  m.lookup key

/-- The call `map.insert(make_pair(key, value))` of `std::map`: an entry whose key is already
in the map is left as it is. -/
def mapInsert {β : Type} (m : List (String × β)) (key : String) (value : β) :
    List (String × β) :=
  if (mapFind m key).isSome then m else m ++ [(key, value)]

/-- A model after `new ModelInterface` and `clear()`. -/
def ModelInterface.clear : ModelInterface :=
  { name_ := "", links_ := [], joints_ := [], root_link_ := none }

/-- What parser_usd.cc reads from a `pxr::UsdPrim`: the path as a string, the name, and the
schema tests `IsA<...>`. -/
structure UsdPrim where
  path : String
  name : String
  isPhysicsScene : Bool
  isPhysicsJoint : Bool
  isLuxLight : Bool
  isLuxSphereLight : Bool
  deriving DecidableEq, Repr

/-- An in-memory `pxr::UsdStage` after a successful import: the prims in the order of
`UsdPrimRange::Stage`, and the content of `metersPerUnit` after `GetMetadata`. -/
structure UsdStage where
  prims : List UsdPrim
  metersPerUnit : ℚ
  deriving DecidableEq, Repr

/-- The exception `ParseError`, with its message. -/
structure ParseError where
  what : String
  deriving DecidableEq, Repr

/-- The child to parent map `parent_link_tree` of `parseUSD`. -/
abbrev LinkTree := List (String × String)

/-- The functions `parseUSD` calls whose bodies live outside parser_usd.cc.

* `ImportFromString xml`: the stage after `CreateInMemory` and `ImportFromString`; `none` when
  the import fails.
* `split`: `ignition::common::split`.
* `ParseJoints prim primName metersPerUnit`: `usd::ParseJoints`; `none` is the null pointer.
* `ParseLinks_found prim link metersPerUnit`: `usd::ParseLinks` handed the pointer to the link
  found in the map: the link behind that pointer as the call leaves it (the pointer the call
  returns is not used by `parseUSD`).
* `ParseLinks_null prim metersPerUnit`: `usd::ParseLinks` handed the null pointer: the link
  returned, `none` is the null pointer.
* `initTree model tree`, `initRoot model tree`: the methods of `ModelInterface`; they return
  the model (and the tree) as they leave it, or raise `ParseError`. -/
structure Library where
  ImportFromString : String → Option UsdStage
  split : String → String → List String
  ParseJoints : UsdPrim → String → ℚ → Option Joint
  ParseLinks_found : UsdPrim → Link → ℚ → Link
  ParseLinks_null : UsdPrim → ℚ → Option Link
  initTree : ModelInterface → LinkTree → Except ParseError (ModelInterface × LinkTree)
  initRoot : ModelInterface → LinkTree → Except ParseError ModelInterface

/-- The variables of `parseUSD` that the loop over the prims reads and writes. -/
structure LoopState where
  model : ModelInterface
  rootPath : String
  nameLink : String
  deriving DecidableEq, Repr

/-- Lines 97 to 101 of `parseUSD`: the first occurrence of "/World" is removed from the path
of the prim. -/
def parseUSD.primName (prim : UsdPrim) : String :=
  match find prim.path "/World" with
  | some pos => erase prim.path pos "/World".length
  | none => prim.path

/-- Lines 155 to 169 of `parseUSD`: the link under the key `nameLink` is handed to `ParseLinks`
by pointer, or, when there is none, a link is parsed from the null pointer and inserted under
that key if `ParseLinks` returns one. -/
def parseUSD.parseLink (L : Library) (prim : UsdPrim) (metersPerUnit : ℚ)
    (model : ModelInterface) (nameLink : String) : ModelInterface :=
  match mapFind model.links_ nameLink with
  | some _ =>
    { model with
      links_ := model.links_.map (fun e =>
        if e.1 = nameLink then (e.1, L.ParseLinks_found prim e.2 metersPerUnit) else e) }
  | none =>
    match L.ParseLinks_null prim metersPerUnit with
    | some link => { model with links_ := mapInsert model.links_ nameLink link }
    | none => model

/-- One round of the loop of `parseUSD`, lines 89 to 175.  The result is `none` when the round
ends in `model.reset(); return model;` (line 171), else the variables after the round. -/
def parseUSD.visit (L : Library) (metersPerUnit : ℚ) (s : LoopState) (prim : UsdPrim) :
    Option LoopState :=
  let primName := parseUSD.primName prim
  let tokens := L.split primName "/"
  if tokens.length = 0 then some s
  else
    let rootPath := if tokens.length = 1 then prim.name else s.rootPath
    let nameLink :=
      if tokens.length > 1 then "/" ++ tokens.getD 0 "" ++ "/" ++ tokens.getD 1 ""
      else s.nameLink
    let s1 : LoopState := { s with rootPath := rootPath, nameLink := nameLink }
    -- usd::ParsePhysicsScene(prim) touches neither the model nor these variables
    if prim.isPhysicsJoint then
      match L.ParseJoints prim primName metersPerUnit with
      | some joint =>
        some { s1 with
          model := { s1.model with joints_ := mapInsert s1.model.joints_ joint.name joint } }
      | none => some s1
    else if tokens.length = 1 then some s1
    else if prim.isLuxLight then some s1
    else
      let model := parseUSD.parseLink L prim metersPerUnit s1.model nameLink
      if model.links_.isEmpty then none
      else some { s1 with model := model }

/-- The loop of `parseUSD` over the prims of the stage; `none` when a round returned the null
model. -/
def parseUSD.visitAll (L : Library) (metersPerUnit : ℚ) :
    LoopState → List UsdPrim → Option LoopState
  | s, [] => some s
  | s, prim :: rest =>
    match parseUSD.visit L metersPerUnit s prim with
    | none => none
    | some s1 => parseUSD.visitAll L metersPerUnit s1 rest

/-- Lines 62 to 86 of `parseUSD`: the name of the model is the constant "test", and the link
named "world" is inserted under the key "world"; `none` when the name is the null pointer. -/
def parseUSD.start : Option LoopState :=
  let name : Option String := some "test"
  match name with
  | none => none
  | some n =>
    let model : ModelInterface := { ModelInterface.clear with name_ := n }
    let worldLink : Link := { name := "world", prims := [] }
    some { model := { model with links_ := mapInsert model.links_ worldLink.name worldLink },
           rootPath := "", nameLink := "" }

/-- Lines 53 to 175 of `parseUSD` once the import has succeeded: the model as it stands when
`initTree` is called; `none` when the null model was returned before. -/
def parseUSD.links (L : Library) (stage : UsdStage) : Option ModelInterface :=
  match parseUSD.start with
  | none => none
  | some s0 =>
    match parseUSD.visitAll L stage.metersPerUnit s0 stage.prims with
    | none => none
    | some s => some s.model

/-- The function `usd::parseUSD`, parser_usd.cc lines 51 to 221; `none` is the null model.  The
stage pointer tested at line 218 was dereferenced at line 57, so the test succeeds. -/
def parseUSD (L : Library) (xml_string : String) : Option ModelInterface :=
  match L.ImportFromString xml_string with
  | none => none
  | some referencee =>
    match parseUSD.links L referencee with
    | none => none
    | some model =>
      match L.initTree model [] with
      | Except.error _ => none
      | Except.ok (model1, parent_link_tree) =>
        match L.initRoot model1 parent_link_tree with
        | Except.error _ => none
        | Except.ok model2 => some model2

end usd.Parser

namespace sdf.Examples

/-- A `world` element, which is not a `model`. -/
def worldElement : Element := leaf "world" [("name", "w")]

/-- A model without a `pose` child: one link and nothing else. -/
def poseless : Element :=
  Element.mk "model" [("name", "m")] Param.empty [leaf "link" [("name", "base")]]

end sdf.Examples

namespace usd

/-- What C16 says of `removeSubStr`, in its own words: the first occurrence of `_substr` is
removed from `_str`, which is left unchanged when `_substr` does not occur in it. -/
def removeSubStr_asClaimed (_str : String) (_substr : String) : String :=
  match find _str _substr with
  | some pos => erase _str pos _substr.length
  | none => _str

/-- What C17 says of `directoryFromUSDPath`, in its own words: for `n >= 2` components the
components `t0 .. t(n-2)` joined in order, and the empty string otherwise. -/
def directoryFromUSDPath_asClaimed (C : Common) (_primPath : String) : String :=
  let tokensChild := C.split _primPath "/"
  if tokensChild.length > 1 then
    ((tokensChild.take (tokensChild.length - 1)).drop 1).foldl C.joinPaths
      (tokensChild.getD 0 "")
  else ""

end usd

namespace usd.Parser

/-- The model has an entry under the key "world" whose link is named "world". -/
def HasWorld (m : ModelInterface) : Prop :=
  ∃ l, mapFind m.links_ "world" = some l ∧ l.name = "world"

/-- The link inserted at lines 82 to 86 of `parseUSD`. -/
def worldLink : Link := { name := "world", prims := [] }

/-- The entry under "world" is the link inserted at the start, untouched, and every other key of
the link map starts with "/". -/
def WorldKept (m : ModelInterface) : Prop :=
  mapFind m.links_ "world" = some worldLink ∧
  ∀ e ∈ m.links_, e.1 = "world" ∨ ∃ rest, e.1 = "/" ++ rest

namespace Modelled

/-- The loop of `initTree` over the joints: both ends of a joint must name links of the model,
else the error names the joint; the child is entered in the tree under its parent. -/
def initTree.loop (model : ModelInterface) :
    List (String × Joint) → LinkTree → Except ParseError LinkTree
  | [], tree => Except.ok tree
  | (_, joint) :: rest, tree =>
    if joint.parent_link_name = "" ∨ joint.child_link_name = "" then
      Except.error ⟨"Joint [" ++ joint.name
        ++ "] is missing a parent and/or child link specification."⟩
    else if (mapFind model.links_ joint.child_link_name).isNone then
      Except.error ⟨"child link [" ++ joint.child_link_name ++ "] of joint [" ++ joint.name
        ++ "] not found"⟩
    else if (mapFind model.links_ joint.parent_link_name).isNone then
      Except.error ⟨"parent link [" ++ joint.parent_link_name ++ "] of joint [" ++ joint.name
        ++ "] not found"⟩
    else initTree.loop model rest (tree ++ [(joint.child_link_name, joint.parent_link_name)])

/-- Modelled from the spec: `ModelInterface::initTree` (the class is not among the translated
files), after section 4.3: both joint endpoints must name existing links in the model (or the
literal world link), else an error naming the joint.  The model is left as it is. -/
def initTree (model : ModelInterface) (parent_link_tree : LinkTree) :
    Except ParseError (ModelInterface × LinkTree) :=
  match initTree.loop model model.joints_ parent_link_tree with
  | Except.ok tree => Except.ok (model, tree)
  | Except.error e => Except.error e

/-- Modelled from the spec: `ModelInterface::initRoot` (the class is not among the translated
files), after section 4.3: exactly one link must be the child of no joint; it becomes the root
link, and zero or several such links are an error. -/
def initRoot (model : ModelInterface) (parent_link_tree : LinkTree) :
    Except ParseError ModelInterface :=
  match model.links_.filter (fun e => (mapFind parent_link_tree e.1).isNone) with
  | [] => Except.error ⟨"No root link found. The robot xml is not a valid tree."⟩
  | [root] => Except.ok { model with root_link_ := some root.1 }
  | root :: second :: _ =>
    Except.error ⟨"Two root links found: [" ++ root.1 ++ "] and [" ++ second.1 ++ "]"⟩

end Modelled

namespace Examples

/-- A prim that is neither a physics scene, nor a joint, nor a light. -/
def geometry (path name : String) : UsdPrim :=
  { path := path, name := name, isPhysicsScene := false, isPhysicsJoint := false,
    isLuxLight := false, isLuxSphereLight := false }

/-- A stage with a robot under "/World": a link `base` with a mesh, a joint that fixes it to
the world, and a light. -/
def robotStage : UsdStage :=
  { prims :=
      [geometry "/World" "World",
       geometry "/World/robot" "robot",
       geometry "/World/robot/base" "base",
       geometry "/World/robot/base/mesh" "mesh",
       { geometry "/World/robot/fixed" "fixed" with isPhysicsJoint := true },
       { geometry "/World/robot/lamp" "lamp" with isLuxLight := true }],
    metersPerUnit := 1 }

/-- A library for the stage `robotStage`: the import succeeds for one input string; a new link
bears the name of its prim; a prim parsed into a link that exists is recorded in it; a joint
fixes the link under "/robot/base" to the world; `initTree` and `initRoot` are as modelled. -/
def library : Library where
  ImportFromString := fun xml => if xml = "robot.usda" then some robotStage else none
  split := common.split
  ParseJoints := fun prim _ _ => some ⟨prim.name, "world", "/robot/base"⟩
  ParseLinks_found := fun prim link _ => { link with prims := link.prims ++ [prim.path] }
  ParseLinks_null := fun prim _ => some ⟨prim.name, [prim.path]⟩
  initTree := Modelled.initTree
  initRoot := Modelled.initRoot

end Examples

end usd.Parser

/-! # Theorems -/

namespace sdf

/-! ## Model::Load: the shape of a call that passes the element-type check -/

/-- The result of `Load` on a `model` element, phase by phase. -/
theorem Load_of_model (D : Collaborators) (m : ModelPrivate) (h : Heap) (_sdf : sdf.Element)
    (hm : _sdf.GetName = "model") :
    Model.Load D m h _sdf =
      { errors := (Model.Load.readDocument D { m with sdf := some _sdf } _sdf).2,
        model := Model.Load.shareGraph (Model.Load.makeShared (Model.Load.buildFrameAttachedTo D
          (Model.Load.buildKinematic D
            (Model.Load.readDocument D { m with sdf := some _sdf } _sdf).1)) h).1,
        heap := Model.Load.buildPoseRelativeTo D
          (Model.Load.makeShared (Model.Load.buildFrameAttachedTo D
            (Model.Load.buildKinematic D
              (Model.Load.readDocument D { m with sdf := some _sdf } _sdf).1)) h).1
          (Model.Load.makeShared (Model.Load.buildFrameAttachedTo D
            (Model.Load.buildKinematic D
              (Model.Load.readDocument D { m with sdf := some _sdf } _sdf).1)) h).2,
        steps := Model.Load.stepsTaken (Model.Load.shareGraph (Model.Load.makeShared
          (Model.Load.buildFrameAttachedTo D (Model.Load.buildKinematic D
            (Model.Load.readDocument D { m with sdf := some _sdf } _sdf).1)) h).1).links.length } := by
  simp [Model.Load, hm]

/-- The canonical-link phase is an update of the field `canonicalLink` alone. -/
theorem readCanonicalLink_eq (D : Collaborators) (m : ModelPrivate) (_sdf : sdf.Element) :
    Model.Load.readCanonicalLink D m _sdf =
      { m with canonicalLink :=
          if D.HasAttribute _sdf "canonical_link" = true
              ∧ (D.Get_string _sdf "canonical_link" "").2 = true
          then (D.Get_string _sdf "canonical_link" "").1 else m.canonicalLink } := by
  unfold Model.Load.readCanonicalLink
  by_cases h1 : D.HasAttribute _sdf "canonical_link" = true
  · by_cases h2 : (D.Get_string _sdf "canonical_link" "").2 = true
    · simp [h1, h2]
    · simp [h1, h2]
  · simp [h1]

/-- The entity lists, the errors and the untouched graphs of the model when the first graph
builder is called. -/
theorem readDocument_spec (D : Collaborators) (m : ModelPrivate) (_sdf : sdf.Element) :
    (Model.Load.readDocument D m _sdf).1.links
        = (D.loadUniqueRepeated_Link _sdf "link" m.links).1 ∧
    (Model.Load.readDocument D m _sdf).1.joints
        = (D.loadUniqueRepeated_Joint _sdf "joint" m.joints).1 ∧
    (Model.Load.readDocument D m _sdf).1.frames
        = (D.loadUniqueRepeated_Frame _sdf "frame" m.frames).1 ∧
    (Model.Load.readDocument D m _sdf).1.kinematicGraph = m.kinematicGraph ∧
    (Model.Load.readDocument D m _sdf).1.frameAttachedToGraph = m.frameAttachedToGraph ∧
    (Model.Load.readDocument D m _sdf).2
        = (if (D.loadName _sdf m.name).2 then []
            else [⟨ErrorCode.ATTRIBUTE_MISSING, Model.msgNameMissing⟩])
          ++ (D.loadUniqueRepeated_Link _sdf "link" m.links).2
          ++ (D.loadUniqueRepeated_Joint _sdf "joint" m.joints).2
          ++ (D.loadUniqueRepeated_Frame _sdf "frame" m.frames).2 := by
  simp only [Model.Load.readDocument, Model.Load.loadFrames, Model.Load.loadJoints,
    Model.Load.loadLinks, Model.Load.readPose, Model.Load.readFlags, readCanonicalLink_eq,
    Model.Load.readName]
  refine ⟨trivial, trivial, trivial, trivial, trivial, ?_⟩
  cases (D.loadName _sdf m.name).2 <;> simp

/-! ## C1: errors of the graph builders -/

/-- C1 (fails on the code): the claim is that every error reported by building the kinematic,
attached-to and relative-pose graphs is in the list `Load` returns.  For the model "cart" whose
joint `axle` names the child `wheeel`, the kinematic graph builder, called by `Load` on the model
as read from the document, reports that the child link of `axle` is not found, and `Load`
returns the empty list: the builder result is dropped at Model.cc line 164. -/
theorem C1_kinematic_build_error_is_not_returned :
    (Modelled.collaborators.buildKinematicGraph
        (Examples.beforeGraphs Examples.cartDangling).kinematicGraph
        (Examples.beforeGraphs Examples.cartDangling)).2
      = [⟨ErrorCode.UnresolvedReference,
          "child link [wheeel] of joint [axle] not found in model."⟩] ∧
    (Model.Load Modelled.collaborators Model.new [] Examples.cartDangling).errors = [] ∧
    ∃ e ∈ (Modelled.collaborators.buildKinematicGraph
        (Examples.beforeGraphs Examples.cartDangling).kinematicGraph
        (Examples.beforeGraphs Examples.cartDangling)).2,
      e ∉ (Model.Load Modelled.collaborators Model.new [] Examples.cartDangling).errors := by
  decide

/-! ## C3: the kinematic graph after a failed build -/

/-- C5: for every `model` element and any collaborators, the list `Load` returns is the
missing-name error (if the name could not be read), then the errors of loading the links, then
those of the joints, then those of the frames; and whatever errors the links gave, the joints
and the frames of the model are the ones their loaders returned. -/
theorem C5_load_accumulates_errors_in_order (D : Collaborators) (m : ModelPrivate) (h : Heap)
    (_sdf : sdf.Element) (hm : _sdf.GetName = "model") :
    (Model.Load D m h _sdf).errors
      = (if (D.loadName _sdf m.name).2 then []
          else [⟨ErrorCode.ATTRIBUTE_MISSING, Model.msgNameMissing⟩])
        ++ (D.loadUniqueRepeated_Link _sdf "link" m.links).2
        ++ (D.loadUniqueRepeated_Joint _sdf "joint" m.joints).2
        ++ (D.loadUniqueRepeated_Frame _sdf "frame" m.frames).2 ∧
    (Model.Load D m h _sdf).model.joints = (D.loadUniqueRepeated_Joint _sdf "joint" m.joints).1 ∧
    (Model.Load D m h _sdf).model.frames
      = (D.loadUniqueRepeated_Frame _sdf "frame" m.frames).1 := by
  obtain ⟨-, hj, hf, -, -, he⟩ := readDocument_spec D { m with sdf := some _sdf } _sdf
  rw [Load_of_model D m h _sdf hm]
  refine ⟨he, ?_, ?_⟩
  · simpa only [Model.Load.shareGraph, Model.Load.makeShared, Model.Load.buildFrameAttachedTo,
      Model.Load.buildKinematic] using hj
  · simpa only [Model.Load.shareGraph, Model.Load.makeShared, Model.Load.buildFrameAttachedTo,
      Model.Load.buildKinematic] using hf

/-- Witness for C5, at the model with two links named `base`: the duplicate link name is
reported and the joint and the frame are loaded all the same. -/
theorem C5_load_accumulates_errors_in_order_witness :
    Examples.twoBases.GetName = "model" ∧
    ((Model.Load Modelled.collaborators Model.new [] Examples.twoBases).errors
      = (if (Modelled.collaborators.loadName Examples.twoBases Model.new.name).2 then []
          else [⟨ErrorCode.ATTRIBUTE_MISSING, Model.msgNameMissing⟩])
        ++ (Modelled.collaborators.loadUniqueRepeated_Link Examples.twoBases "link"
              Model.new.links).2
        ++ (Modelled.collaborators.loadUniqueRepeated_Joint Examples.twoBases "joint"
              Model.new.joints).2
        ++ (Modelled.collaborators.loadUniqueRepeated_Frame Examples.twoBases "frame"
              Model.new.frames).2 ∧
    (Model.Load Modelled.collaborators Model.new [] Examples.twoBases).model.joints
      = (Modelled.collaborators.loadUniqueRepeated_Joint Examples.twoBases "joint"
            Model.new.joints).1 ∧
    (Model.Load Modelled.collaborators Model.new [] Examples.twoBases).model.frames
      = (Modelled.collaborators.loadUniqueRepeated_Frame Examples.twoBases "frame"
            Model.new.frames).1) :=
  ⟨rfl, C5_load_accumulates_errors_in_order Modelled.collaborators Model.new []
    Examples.twoBases rfl⟩

end sdf

namespace usd

open sdf

/-! ## ParseSdfLink: the poses it writes -/

/-- The poses written to a stage extended by further operations. -/
theorem posesWritten_append (s t : Stage) :
    posesWritten (s ++ t) = posesWritten s ++ posesWritten t := by
  simp [posesWritten, List.filterMap_append]

/-- The rigid-body part of `ParseSdfLink` writes no pose. -/
theorem rigidBody_posesWritten (U : Collaborators) (_link : Link) (_stage : Stage)
    (_path : String) :
    posesWritten (ParseSdfLink.rigidBody U _link _stage _path).1 = posesWritten _stage := by
  unfold ParseSdfLink.rigidBody
  split
  · rfl
  · split
    · rfl
    · simp only []
      split
      · simp [posesWritten_append, posesWritten]
      · split
        · simp [posesWritten_append, posesWritten]
        · simp [posesWritten_append, posesWritten]

/-- The visuals loop of `ParseSdfLink` writes no pose itself. -/
theorem visuals_posesWritten (U : Collaborators) (_path : String) (vs : List Visual)
    (_stage : Stage) :
    posesWritten (ParseSdfLink.visuals U _path vs _stage).1 = posesWritten _stage := by
  induction vs generalizing _stage with
  | nil => rfl
  | cons v rest ih =>
    unfold ParseSdfLink.visuals
    simp only []
    split
    · simp [posesWritten_append, posesWritten]
    · rw [ih]
      simp [posesWritten_append, posesWritten]

/-- The poses written after `ParseSdfLink` are those the pose step leaves: the later parts of
the function write none. -/
theorem ParseSdfLink_posesWritten (U : Collaborators) (_link : Link) (_stage : Stage)
    (_path : String) (_rigidBody : Bool) (_canonicalLink : String) :
    posesWritten (ParseSdfLink U _link _stage _path _rigidBody _canonicalLink).stage
      = posesWritten (ParseSdfLink.writePose U _link (_stage ++ [StageOp.DefineXform _path])
          _path _canonicalLink).1 := by
  unfold ParseSdfLink
  cases _rigidBody
  · simp [visuals_posesWritten]
  · simp only [if_true]
    split
    · simp [rigidBody_posesWritten]
    · simp [visuals_posesWritten, rigidBody_posesWritten]

/-- The pose step writes exactly one pose, at the path of the link. -/
theorem writePose_posesWritten (U : Collaborators) (_link : Link) (_stage : Stage)
    (_path : String) (_canonicalLink : String) :
    posesWritten (ParseSdfLink.writePose U _link (_stage ++ [StageOp.DefineXform _path]) _path
        _canonicalLink).1
      = posesWritten _stage ++
          [(if _link.poseRelativeTo = "" then _link.pose
              else (U.Resolve _link.SemanticPose Pose3d.Zero _canonicalLink).1, _path)] := by
  unfold ParseSdfLink.writePose
  by_cases hp : _link.poseRelativeTo = "" <;>
    simp [hp, Link.PoseRelativeTo, Link.RawPose, SetPose, posesWritten_append, posesWritten]

/-- The resolutions `ParseSdfLink` requests are those of the pose step. -/
theorem ParseSdfLink_resolved (U : Collaborators) (_link : Link) (_stage : Stage)
    (_path : String) (_rigidBody : Bool) (_canonicalLink : String) :
    (ParseSdfLink U _link _stage _path _rigidBody _canonicalLink).resolved
      = if _link.poseRelativeTo = "" then [] else [(_link.name, _canonicalLink)] := by
  have h1 : (ParseSdfLink U _link _stage _path _rigidBody _canonicalLink).resolved
      = (ParseSdfLink.writePose U _link (_stage ++ [StageOp.DefineXform _path]) _path
          _canonicalLink).2 := by
    unfold ParseSdfLink
    cases _rigidBody
    · simp
    · simp only [if_true]
      split <;> rfl
  rw [h1]
  unfold ParseSdfLink.writePose
  by_cases hp : _link.poseRelativeTo = "" <;>
    simp [hp, Link.PoseRelativeTo, Link.SemanticPose]

/-- The modelled `Resolve` of an entity against itself leaves the identity in an out-parameter
that was handed the identity, whatever the graph pointer designates. -/
theorem Resolve_self (A : Modelled.PoseAlgebra) (h : Heap) (sp : SemanticPose) :
    (Modelled.Resolve A h sp Pose3d.Zero sp.name).1 = Pose3d.Zero := by
  unfold Modelled.Resolve
  split
  · rfl
  · split
    · rfl
    · simp [Modelled.ResolvePose]

/-! ## C2: a failed pose resolution -/

/-- C2 (fails on the code): the claim is that no pose is written for a link whose pose
resolution reports an error.  The link `arm` of the model `armAstray` declares the pose
`(1, 2, 3)` relative to the frame `nowhere`, which does not exist.  `Load` returns no error and
leaves `arm` sharing the graph at address 0.  Resolving `arm` relative to the canonical link
`base` reports an error and leaves the default-constructed pose in the out-parameter, and
`ParseSdfLink` writes that default pose at the path of the link and returns `true`. -/
theorem C2_failed_resolution_writes_the_default_pose :
    Model.LinkByName (Examples.loaded Examples.armAstray).model "arm" = some Examples.arm ∧
    (Modelled.Resolve Modelled.rigid (Examples.loaded Examples.armAstray).heap
        Examples.arm.SemanticPose Pose3d.Zero "base")
      = (Pose3d.Zero,
          [⟨ErrorCode.PathUnreachable, "no path to the scope root from: arm"⟩]) ∧
    ParseSdfLink (collaborators Modelled.rigid (Examples.loaded Examples.armAstray).heap)
        Examples.arm [] "/m/arm" false "base"
      = { stage := [StageOp.DefineXform "/m/arm", StageOp.SetPose Pose3d.Zero "/m/arm"],
          resolved := [("arm", "base")], ok := true } := by
  decide

/-! ## C6: resolving an entity against itself -/

/-- C6: with the queries of the relative-pose graph as the specification describes them,
`ResolvePose(x, x)` is the identity pose for every graph and every name `x`; and when
`ParseSdfLink` is given a link with a non-empty `poseRelativeTo` and the name of that link as
canonical link, the one pose it writes, at the path of the link, is the identity pose. -/
theorem C6_resolving_against_itself_gives_identity (A : Modelled.PoseAlgebra)
    (g : PoseRelativeToGraph) (x : String) (h : Heap) (U : Collaborators)
    (hU : U.Resolve = Modelled.Resolve A h) (_link : Link) (_stage : Stage) (_path : String)
    (_rigidBody : Bool) (_canonicalLink : String) (hrel : _link.poseRelativeTo ≠ "")
    (hcan : _canonicalLink = _link.name) :
    Modelled.ResolvePose A g x x = Except.ok Pose3d.Zero ∧
    posesWritten (ParseSdfLink U _link _stage _path _rigidBody _canonicalLink).stage
      = posesWritten _stage ++ [(Pose3d.Zero, _path)] := by
  refine ⟨by simp [Modelled.ResolvePose], ?_⟩
  have hs := Resolve_self A h _link.SemanticPose
  rw [ParseSdfLink_posesWritten, writePose_posesWritten, hU, hcan, if_neg hrel]
  rw [show _link.name = _link.SemanticPose.name from rfl, hs]

/-- Witness for C6: the link `wheel` of the model "cart", whose pose is declared relative to
`chassis`, converted with `wheel` itself as canonical link. -/
theorem C6_resolving_against_itself_gives_identity_witness :
    Examples.wheel.poseRelativeTo ≠ "" ∧
    (Modelled.ResolvePose Modelled.rigid PoseRelativeToGraph.empty "wheel" "wheel"
        = Except.ok Pose3d.Zero ∧
      posesWritten (ParseSdfLink
          (collaborators Modelled.rigid (Examples.loaded Examples.cart).heap) Examples.wheel []
          "/cart/wheel" true "wheel").stage
        = posesWritten [] ++ [(Pose3d.Zero, "/cart/wheel")]) :=
  ⟨by decide, C6_resolving_against_itself_gives_identity Modelled.rigid
    PoseRelativeToGraph.empty "wheel" (Examples.loaded Examples.cart).heap
    (collaborators Modelled.rigid (Examples.loaded Examples.cart).heap) rfl Examples.wheel []
    "/cart/wheel" true "wheel" (by decide) rfl⟩

/-! ## C9: the pose ParseSdfLink writes -/

/-- C9: for every link, stage, path and canonical link, and any collaborators, `ParseSdfLink`
writes exactly one pose, at the path of the link.  With an empty `poseRelativeTo` it is the raw
pose of the link and no resolution is requested from the graph; otherwise it is what `Resolve`
of the semantic pose of the link relative to the canonical link leaves in the out-parameter it
was handed default-constructed, and that is the one resolution requested. -/
theorem C9_pose_written_is_chosen_by_poseRelativeTo (U : Collaborators) (_link : Link)
    (_stage : Stage) (_path : String) (_rigidBody : Bool) (_canonicalLink : String) :
    posesWritten (ParseSdfLink U _link _stage _path _rigidBody _canonicalLink).stage
      = posesWritten _stage ++
          [(if _link.poseRelativeTo = "" then _link.pose
              else (U.Resolve _link.SemanticPose Pose3d.Zero _canonicalLink).1, _path)] ∧
    (ParseSdfLink U _link _stage _path _rigidBody _canonicalLink).resolved
      = if _link.poseRelativeTo = "" then [] else [(_link.name, _canonicalLink)] := by
  exact ⟨by rw [ParseSdfLink_posesWritten, writePose_posesWritten],
    ParseSdfLink_resolved U _link _stage _path _rigidBody _canonicalLink⟩

end usd

namespace sdf

/-! ## C7 and C8: when the graphs are built and who shares the relative-pose graph -/

/-- The call of `make_shared` followed by the build of the relative-pose graph appends exactly
one graph to the heap: the one the builder leaves in the fresh, empty graph. -/
theorem buildPoseRelativeTo_makeShared (D : Collaborators) (m : ModelPrivate) (h : Heap) :
    Model.Load.buildPoseRelativeTo D (Model.Load.makeShared m h).1 (Model.Load.makeShared m h).2
      = h ++ [(D.buildPoseRelativeToGraph PoseRelativeToGraph.empty
          (Model.Load.makeShared m h).1).1] := by
  simp [Model.Load.buildPoseRelativeTo, Model.Load.makeShared]

/-- C7: in every call of `Load` on a `model` element, with any collaborators, each of the three
graph builders is called exactly once, every call of a loader precedes every call of a builder,
each builder is handed a model that holds the complete lists of links, joints and frames the
loaders returned, and the model holds these very lists after `Load` (each link with the graph
pointer stored in it): no entity is added after a builder has run. -/
theorem C7_graphs_are_built_once_after_all_entities (D : Collaborators) (m : ModelPrivate)
    (h : Heap) (_sdf : sdf.Element) (hm : _sdf.GetName = "model") :
    (Model.Load D m h _sdf).steps.count LoadStep.builtKinematicGraph = 1 ∧
    (Model.Load D m h _sdf).steps.count LoadStep.builtFrameAttachedToGraph = 1 ∧
    (Model.Load D m h _sdf).steps.count LoadStep.builtPoseRelativeToGraph = 1 ∧
    (∃ rest, (Model.Load D m h _sdf).steps
        = [LoadStep.loaded "link", LoadStep.loaded "joint", LoadStep.loaded "frame"] ++ rest ∧
      ∀ tag, LoadStep.loaded tag ∉ rest) ∧
    (∃ mK mF mP : ModelPrivate,
      (Model.Load D m h _sdf).model.kinematicGraph
        = (D.buildKinematicGraph m.kinematicGraph mK).1 ∧
      (Model.Load D m h _sdf).model.frameAttachedToGraph
        = (D.buildFrameAttachedToGraph m.frameAttachedToGraph mF).1 ∧
      (Model.Load D m h _sdf).heap
        = h ++ [(D.buildPoseRelativeToGraph PoseRelativeToGraph.empty mP).1] ∧
      Model.holds mK (D.loadUniqueRepeated_Link _sdf "link" m.links).1
        (D.loadUniqueRepeated_Joint _sdf "joint" m.joints).1
        (D.loadUniqueRepeated_Frame _sdf "frame" m.frames).1 ∧
      Model.holds mF (D.loadUniqueRepeated_Link _sdf "link" m.links).1
        (D.loadUniqueRepeated_Joint _sdf "joint" m.joints).1
        (D.loadUniqueRepeated_Frame _sdf "frame" m.frames).1 ∧
      Model.holds mP (D.loadUniqueRepeated_Link _sdf "link" m.links).1
        (D.loadUniqueRepeated_Joint _sdf "joint" m.joints).1
        (D.loadUniqueRepeated_Frame _sdf "frame" m.frames).1) ∧
    Model.holds (Model.Load D m h _sdf).model
      ((D.loadUniqueRepeated_Link _sdf "link" m.links).1.map
        (fun l => l.SetPoseRelativeToGraph (some h.length)))
      (D.loadUniqueRepeated_Joint _sdf "joint" m.joints).1
      (D.loadUniqueRepeated_Frame _sdf "frame" m.frames).1 := by
  obtain ⟨hl, hj, hf, hk, ha, -⟩ := readDocument_spec D { m with sdf := some _sdf } _sdf
  simp only [] at hl hj hf hk ha
  rw [Load_of_model D m h _sdf hm]
  refine ⟨?_, ?_, ?_, ⟨_, rfl, ?_⟩, ?_, ?_⟩
  · simp [Model.Load.stepsTaken, List.count_cons, List.count_eq_zero]
  · simp [Model.Load.stepsTaken, List.count_cons, List.count_eq_zero]
  · simp [Model.Load.stepsTaken, List.count_cons, List.count_eq_zero]
  · intro tag
    simp
  · refine ⟨(Model.Load.readDocument D { m with sdf := some _sdf } _sdf).1,
      Model.Load.buildKinematic D (Model.Load.readDocument D { m with sdf := some _sdf } _sdf).1,
      (Model.Load.makeShared (Model.Load.buildFrameAttachedTo D (Model.Load.buildKinematic D
        (Model.Load.readDocument D { m with sdf := some _sdf } _sdf).1)) h).1,
      ?_, ?_, buildPoseRelativeTo_makeShared D _ h, ⟨hl, hj, hf⟩, ⟨hl, hj, hf⟩, ⟨hl, hj, hf⟩⟩
    · simp only [Model.Load.shareGraph, Model.Load.makeShared, Model.Load.buildFrameAttachedTo,
        Model.Load.buildKinematic, hk]
    · simp only [Model.Load.shareGraph, Model.Load.makeShared, Model.Load.buildFrameAttachedTo,
        Model.Load.buildKinematic, ha]
  · refine ⟨?_, hj, hf⟩
    simp only [Model.Load.shareGraph, Model.Load.makeShared, Model.Load.buildFrameAttachedTo,
      Model.Load.buildKinematic, hl]

/-- Witness for C7, at the model "cart" loaded into a fresh model with the modelled
collaborators. -/
theorem C7_graphs_are_built_once_after_all_entities_witness :
    Examples.cart.GetName = "model" ∧
    ((Examples.loaded Examples.cart).steps.count LoadStep.builtKinematicGraph = 1 ∧
    (Examples.loaded Examples.cart).steps.count LoadStep.builtFrameAttachedToGraph = 1 ∧
    (Examples.loaded Examples.cart).steps.count LoadStep.builtPoseRelativeToGraph = 1 ∧
    (∃ rest, (Examples.loaded Examples.cart).steps
        = [LoadStep.loaded "link", LoadStep.loaded "joint", LoadStep.loaded "frame"] ++ rest ∧
      ∀ tag, LoadStep.loaded tag ∉ rest) ∧
    (∃ mK mF mP : ModelPrivate,
      (Examples.loaded Examples.cart).model.kinematicGraph
        = (Modelled.collaborators.buildKinematicGraph Model.new.kinematicGraph mK).1 ∧
      (Examples.loaded Examples.cart).model.frameAttachedToGraph
        = (Modelled.collaborators.buildFrameAttachedToGraph Model.new.frameAttachedToGraph
            mF).1 ∧
      (Examples.loaded Examples.cart).heap
        = [] ++ [(Modelled.collaborators.buildPoseRelativeToGraph PoseRelativeToGraph.empty
            mP).1] ∧
      Model.holds mK
        (Modelled.collaborators.loadUniqueRepeated_Link Examples.cart "link" Model.new.links).1
        (Modelled.collaborators.loadUniqueRepeated_Joint Examples.cart "joint"
          Model.new.joints).1
        (Modelled.collaborators.loadUniqueRepeated_Frame Examples.cart "frame"
          Model.new.frames).1 ∧
      Model.holds mF
        (Modelled.collaborators.loadUniqueRepeated_Link Examples.cart "link" Model.new.links).1
        (Modelled.collaborators.loadUniqueRepeated_Joint Examples.cart "joint"
          Model.new.joints).1
        (Modelled.collaborators.loadUniqueRepeated_Frame Examples.cart "frame"
          Model.new.frames).1 ∧
      Model.holds mP
        (Modelled.collaborators.loadUniqueRepeated_Link Examples.cart "link" Model.new.links).1
        (Modelled.collaborators.loadUniqueRepeated_Joint Examples.cart "joint"
          Model.new.joints).1
        (Modelled.collaborators.loadUniqueRepeated_Frame Examples.cart "frame"
          Model.new.frames).1) ∧
    Model.holds (Examples.loaded Examples.cart).model
      ((Modelled.collaborators.loadUniqueRepeated_Link Examples.cart "link"
          Model.new.links).1.map
        (fun l => l.SetPoseRelativeToGraph (some ([] : Heap).length)))
      (Modelled.collaborators.loadUniqueRepeated_Joint Examples.cart "joint" Model.new.joints).1
      (Modelled.collaborators.loadUniqueRepeated_Frame Examples.cart "frame"
        Model.new.frames).1) :=
  ⟨rfl, C7_graphs_are_built_once_after_all_entities Modelled.collaborators Model.new []
    Examples.cart rfl⟩

/-- C8: after every call of `Load` on a `model` element, with any collaborators, the model
points to the graph at one address, every link of the model points to that same address, the
address was not in use before the call, and the graph stored there is the one the builder made
from the empty graph and this model as it stood before the pointer was handed to the links. -/
theorem C8_links_share_the_graph_of_the_model (D : Collaborators) (m : ModelPrivate) (h : Heap)
    (_sdf : sdf.Element) (hm : _sdf.GetName = "model") :
    (Model.Load D m h _sdf).model.poseRelativeToGraph = some h.length ∧
    (∀ l ∈ (Model.Load D m h _sdf).model.links, l.poseRelativeToGraph = some h.length) ∧
    h.get? h.length = none ∧
    ∃ mP : ModelPrivate,
      (Model.Load D m h _sdf).heap
        = h ++ [(D.buildPoseRelativeToGraph PoseRelativeToGraph.empty mP).1] ∧
      (Model.Load D m h _sdf).heap.get? h.length
        = some (D.buildPoseRelativeToGraph PoseRelativeToGraph.empty mP).1 ∧
      Model.Load.shareGraph mP = (Model.Load D m h _sdf).model := by
  rw [Load_of_model D m h _sdf hm]
  refine ⟨rfl, ?_, by simp, ⟨(Model.Load.makeShared (Model.Load.buildFrameAttachedTo D
    (Model.Load.buildKinematic D (Model.Load.readDocument D { m with sdf := some _sdf }
      _sdf).1)) h).1, buildPoseRelativeTo_makeShared D _ h, ?_, rfl⟩⟩
  · intro l hl
    simp only [Model.Load.shareGraph, Model.Load.makeShared, List.mem_map] at hl
    obtain ⟨l0, -, rfl⟩ := hl
    rfl
  · simp only []
    rw [buildPoseRelativeTo_makeShared D _ h]
    simp

/-- Witness for C8, at the model "cart" loaded into a fresh model with the modelled
collaborators. -/
theorem C8_links_share_the_graph_of_the_model_witness :
    Examples.cart.GetName = "model" ∧
    ((Examples.loaded Examples.cart).model.poseRelativeToGraph = some ([] : Heap).length ∧
    (∀ l ∈ (Examples.loaded Examples.cart).model.links,
      l.poseRelativeToGraph = some ([] : Heap).length) ∧
    ([] : Heap).get? ([] : Heap).length = none ∧
    ∃ mP : ModelPrivate,
      (Examples.loaded Examples.cart).heap
        = [] ++ [(Modelled.collaborators.buildPoseRelativeToGraph PoseRelativeToGraph.empty
            mP).1] ∧
      (Examples.loaded Examples.cart).heap.get? ([] : Heap).length
        = some (Modelled.collaborators.buildPoseRelativeToGraph PoseRelativeToGraph.empty
            mP).1 ∧
      Model.Load.shareGraph mP = (Examples.loaded Examples.cart).model) :=
  ⟨rfl, C8_links_share_the_graph_of_the_model Modelled.collaborators Model.new []
    Examples.cart rfl⟩

/-! ## C10: the setters -/

/-- C10: each of the eight setters of `Model` stores the value given, so that the matching
getter returns it, and leaves every other field, the lists of links, joints and frames, the
element pointer and the three graphs as they were. -/
theorem C10_setters_change_only_their_field (m : ModelPrivate) (s : String) (b : Bool)
    (p : Pose3d) :
    (Model.Name (Model.SetName m s) = s ∧
      (Model.SetName m s).isStatic = m.isStatic ∧
      (Model.SetName m s).selfCollide = m.selfCollide ∧
      (Model.SetName m s).allowAutoDisable = m.allowAutoDisable ∧
      (Model.SetName m s).enableWind = m.enableWind ∧
      (Model.SetName m s).canonicalLink = m.canonicalLink ∧
      (Model.SetName m s).pose = m.pose ∧
      (Model.SetName m s).poseRelativeTo = m.poseRelativeTo ∧
      Model.sameListsAndGraphs (Model.SetName m s) m) ∧
    (Model.Static (Model.SetStatic m b) = b ∧
      (Model.SetStatic m b).name = m.name ∧
      (Model.SetStatic m b).selfCollide = m.selfCollide ∧
      (Model.SetStatic m b).allowAutoDisable = m.allowAutoDisable ∧
      (Model.SetStatic m b).enableWind = m.enableWind ∧
      (Model.SetStatic m b).canonicalLink = m.canonicalLink ∧
      (Model.SetStatic m b).pose = m.pose ∧
      (Model.SetStatic m b).poseRelativeTo = m.poseRelativeTo ∧
      Model.sameListsAndGraphs (Model.SetStatic m b) m) ∧
    (Model.SelfCollide (Model.SetSelfCollide m b) = b ∧
      (Model.SetSelfCollide m b).name = m.name ∧
      (Model.SetSelfCollide m b).isStatic = m.isStatic ∧
      (Model.SetSelfCollide m b).allowAutoDisable = m.allowAutoDisable ∧
      (Model.SetSelfCollide m b).enableWind = m.enableWind ∧
      (Model.SetSelfCollide m b).canonicalLink = m.canonicalLink ∧
      (Model.SetSelfCollide m b).pose = m.pose ∧
      (Model.SetSelfCollide m b).poseRelativeTo = m.poseRelativeTo ∧
      Model.sameListsAndGraphs (Model.SetSelfCollide m b) m) ∧
    (Model.AllowAutoDisable (Model.SetAllowAutoDisable m b) = b ∧
      (Model.SetAllowAutoDisable m b).name = m.name ∧
      (Model.SetAllowAutoDisable m b).isStatic = m.isStatic ∧
      (Model.SetAllowAutoDisable m b).selfCollide = m.selfCollide ∧
      (Model.SetAllowAutoDisable m b).enableWind = m.enableWind ∧
      (Model.SetAllowAutoDisable m b).canonicalLink = m.canonicalLink ∧
      (Model.SetAllowAutoDisable m b).pose = m.pose ∧
      (Model.SetAllowAutoDisable m b).poseRelativeTo = m.poseRelativeTo ∧
      Model.sameListsAndGraphs (Model.SetAllowAutoDisable m b) m) ∧
    (Model.EnableWind (Model.SetEnableWind m b) = b ∧
      (Model.SetEnableWind m b).name = m.name ∧
      (Model.SetEnableWind m b).isStatic = m.isStatic ∧
      (Model.SetEnableWind m b).selfCollide = m.selfCollide ∧
      (Model.SetEnableWind m b).allowAutoDisable = m.allowAutoDisable ∧
      (Model.SetEnableWind m b).canonicalLink = m.canonicalLink ∧
      (Model.SetEnableWind m b).pose = m.pose ∧
      (Model.SetEnableWind m b).poseRelativeTo = m.poseRelativeTo ∧
      Model.sameListsAndGraphs (Model.SetEnableWind m b) m) ∧
    (Model.CanonicalLinkName (Model.SetCanonicalLinkName m s) = s ∧
      (Model.SetCanonicalLinkName m s).name = m.name ∧
      (Model.SetCanonicalLinkName m s).isStatic = m.isStatic ∧
      (Model.SetCanonicalLinkName m s).selfCollide = m.selfCollide ∧
      (Model.SetCanonicalLinkName m s).allowAutoDisable = m.allowAutoDisable ∧
      (Model.SetCanonicalLinkName m s).enableWind = m.enableWind ∧
      (Model.SetCanonicalLinkName m s).pose = m.pose ∧
      (Model.SetCanonicalLinkName m s).poseRelativeTo = m.poseRelativeTo ∧
      Model.sameListsAndGraphs (Model.SetCanonicalLinkName m s) m) ∧
    (Model.Pose (Model.SetPose m p) = p ∧
      (Model.SetPose m p).name = m.name ∧
      (Model.SetPose m p).isStatic = m.isStatic ∧
      (Model.SetPose m p).selfCollide = m.selfCollide ∧
      (Model.SetPose m p).allowAutoDisable = m.allowAutoDisable ∧
      (Model.SetPose m p).enableWind = m.enableWind ∧
      (Model.SetPose m p).canonicalLink = m.canonicalLink ∧
      (Model.SetPose m p).poseRelativeTo = m.poseRelativeTo ∧
      Model.sameListsAndGraphs (Model.SetPose m p) m) ∧
    (Model.PoseRelativeTo (Model.SetPoseRelativeTo m s) = s ∧
      (Model.SetPoseRelativeTo m s).name = m.name ∧
      (Model.SetPoseRelativeTo m s).isStatic = m.isStatic ∧
      (Model.SetPoseRelativeTo m s).selfCollide = m.selfCollide ∧
      (Model.SetPoseRelativeTo m s).allowAutoDisable = m.allowAutoDisable ∧
      (Model.SetPoseRelativeTo m s).enableWind = m.enableWind ∧
      (Model.SetPoseRelativeTo m s).canonicalLink = m.canonicalLink ∧
      (Model.SetPoseRelativeTo m s).pose = m.pose ∧
      Model.sameListsAndGraphs (Model.SetPoseRelativeTo m s) m) := by
  refine ⟨?_, ?_, ?_, ?_, ?_, ?_, ?_, ?_⟩ <;>
    exact ⟨rfl, rfl, rfl, rfl, rfl, rfl, rfl, rfl, rfl, rfl, rfl, rfl, rfl, rfl, rfl⟩

end sdf

namespace sdf

/-! ## C4: name uniqueness is per kind -/

end sdf

namespace sdf

/-! ## C11: lookup by name -/

/-- The loop of `LinkNameExists` finds a name exactly when a link bears it. -/
theorem LinkNameExists_loop_iff (n : String) (ls : List Link) :
    Model.LinkNameExists.loop n ls = true ↔ ∃ l ∈ ls, l.name = n := by
  induction ls with
  | nil => simp [Model.LinkNameExists.loop]
  | cons l rest ih =>
    unfold Model.LinkNameExists.loop
    by_cases hl : l.name = n <;> simp [hl, ih]

/-- The loop of `LinkByName` returns the first link that bears the name. -/
theorem LinkByName_loop_eq (n : String) (ls : List Link) :
    Model.LinkByName.loop n ls = ls.find? (fun l => decide (l.name = n)) := by
  induction ls with
  | nil => rfl
  | cons l rest ih =>
    unfold Model.LinkByName.loop
    by_cases hl : l.name = n <;> simp [hl, ih, List.find?_cons]

/-- The loop of `JointNameExists` finds a name exactly when a joint bears it. -/
theorem JointNameExists_loop_iff (n : String) (js : List Joint) :
    Model.JointNameExists.loop n js = true ↔ ∃ j ∈ js, j.name = n := by
  induction js with
  | nil => simp [Model.JointNameExists.loop]
  | cons j rest ih =>
    unfold Model.JointNameExists.loop
    by_cases hj : j.name = n <;> simp [hj, ih]

/-- The loop of `JointByName` returns the first joint that bears the name. -/
theorem JointByName_loop_eq (n : String) (js : List Joint) :
    Model.JointByName.loop n js = js.find? (fun j => decide (j.name = n)) := by
  induction js with
  | nil => rfl
  | cons j rest ih =>
    unfold Model.JointByName.loop
    by_cases hj : j.name = n <;> simp [hj, ih, List.find?_cons]

/-- The loop of `FrameNameExists` finds a name exactly when a frame bears it. -/
theorem FrameNameExists_loop_iff (n : String) (fs : List Frame) :
    Model.FrameNameExists.loop n fs = true ↔ ∃ f ∈ fs, f.name = n := by
  induction fs with
  | nil => simp [Model.FrameNameExists.loop]
  | cons f rest ih =>
    unfold Model.FrameNameExists.loop
    by_cases hf : f.name = n <;> simp [hf, ih]

/-- The loop of `FrameByName` returns the first frame that bears the name. -/
theorem FrameByName_loop_eq (n : String) (fs : List Frame) :
    Model.FrameByName.loop n fs = fs.find? (fun f => decide (f.name = n)) := by
  induction fs with
  | nil => rfl
  | cons f rest ih =>
    unfold Model.FrameByName.loop
    by_cases hf : f.name = n <;> simp [hf, ih, List.find?_cons]

/-- A search with `find?` succeeds exactly when an element satisfies the test. -/
theorem find?_isSome_iff_exists {α : Type} (p : α → Prop) [DecidablePred p] (xs : List α) :
    (xs.find? (fun x => decide (p x))).isSome = true ↔ ∃ x ∈ xs, p x := by
  simp [List.find?_isSome]

/-- C11: for every model and every string `n`, `LinkNameExists(n)` is true exactly when
`LinkByName(n)` is not null, exactly when some link has a name equal to `n`, and `LinkByName(n)`
is the first link of the list whose name equals `n`; the same for joints and for frames.  A
lookup among the links is decided by the list of links alone, whatever the joints and the
frames are, and what it returns is a link of that list.  Equality of names is equality of
strings: the link `Base` is not found under the name `base`. -/
theorem C11_lookup_by_name_is_exact (m : ModelPrivate) (n : String) :
    ((Model.LinkNameExists m n = true ↔ (Model.LinkByName m n).isSome = true) ∧
      (Model.LinkNameExists m n = true ↔ ∃ l ∈ m.links, l.name = n) ∧
      Model.LinkByName m n = m.links.find? (fun l => decide (l.name = n))) ∧
    ((Model.JointNameExists m n = true ↔ (Model.JointByName m n).isSome = true) ∧
      (Model.JointNameExists m n = true ↔ ∃ j ∈ m.joints, j.name = n) ∧
      Model.JointByName m n = m.joints.find? (fun j => decide (j.name = n))) ∧
    ((Model.FrameNameExists m n = true ↔ (Model.FrameByName m n).isSome = true) ∧
      (Model.FrameNameExists m n = true ↔ ∃ f ∈ m.frames, f.name = n) ∧
      Model.FrameByName m n = m.frames.find? (fun f => decide (f.name = n))) ∧
    (∀ (js : List Joint) (fs : List Frame),
      Model.LinkByName { m with joints := js, frames := fs } n = Model.LinkByName m n ∧
      Model.LinkNameExists { m with joints := js, frames := fs } n
        = Model.LinkNameExists m n) ∧
    (∀ l, Model.LinkByName m n = some l → l ∈ m.links ∧ l.name = n) ∧
    Model.LinkNameExists
      { Model.new with links := [⟨"Base", Pose3d.Zero, "", ⟨1, 1, 1, 1, Pose3d.Zero⟩, [], none⟩] }
      "base" = false := by
  have hL := LinkNameExists_loop_iff n m.links
  have hJ := JointNameExists_loop_iff n m.joints
  have hF := FrameNameExists_loop_iff n m.frames
  have hL2 := LinkByName_loop_eq n m.links
  have hJ2 := JointByName_loop_eq n m.joints
  have hF2 := FrameByName_loop_eq n m.frames
  refine ⟨⟨?_, hL, hL2⟩, ⟨?_, hJ, hJ2⟩, ⟨?_, hF, hF2⟩, fun _ _ => ⟨rfl, rfl⟩, ?_, by decide⟩
  · unfold Model.LinkNameExists Model.LinkByName
    rw [hL, hL2, find?_isSome_iff_exists (fun l : Link => l.name = n)]
  · unfold Model.JointNameExists Model.JointByName
    rw [hJ, hJ2, find?_isSome_iff_exists (fun j : Joint => j.name = n)]
  · unfold Model.FrameNameExists Model.FrameByName
    rw [hF, hF2, find?_isSome_iff_exists (fun f : Frame => f.name = n)]
  · intro l hl
    unfold Model.LinkByName at hl
    rw [hL2] at hl
    exact ⟨List.mem_of_find?_eq_some hl, by simpa using List.find?_some hl⟩

/-! ## C14: an element that is not a model -/

/-- C14: when `Load` is given an element whose name is not "model", it returns exactly one
error, of code `ELEMENT_INCORRECT_TYPE`; the model is as before except for the stored element
pointer, field by field; the heap of graphs is as before; no loader and no builder is called;
and the result is the same whatever the collaborators are, so nothing is read through them. -/
theorem C14_wrong_element_type_stops_load (D D2 : Collaborators) (m : ModelPrivate) (h : Heap)
    (_sdf : sdf.Element) (hne : _sdf.GetName ≠ "model") :
    (Model.Load D m h _sdf).errors
      = [⟨ErrorCode.ELEMENT_INCORRECT_TYPE, Model.msgIncorrectType⟩] ∧
    (Model.Load D m h _sdf).model.sdf = some _sdf ∧
    ((Model.Load D m h _sdf).model.name = m.name ∧
      (Model.Load D m h _sdf).model.isStatic = m.isStatic ∧
      (Model.Load D m h _sdf).model.selfCollide = m.selfCollide ∧
      (Model.Load D m h _sdf).model.allowAutoDisable = m.allowAutoDisable ∧
      (Model.Load D m h _sdf).model.enableWind = m.enableWind ∧
      (Model.Load D m h _sdf).model.canonicalLink = m.canonicalLink ∧
      (Model.Load D m h _sdf).model.pose = m.pose ∧
      (Model.Load D m h _sdf).model.poseRelativeTo = m.poseRelativeTo ∧
      (Model.Load D m h _sdf).model.links = m.links ∧
      (Model.Load D m h _sdf).model.joints = m.joints ∧
      (Model.Load D m h _sdf).model.frames = m.frames ∧
      (Model.Load D m h _sdf).model.kinematicGraph = m.kinematicGraph ∧
      (Model.Load D m h _sdf).model.frameAttachedToGraph = m.frameAttachedToGraph ∧
      (Model.Load D m h _sdf).model.poseRelativeToGraph = m.poseRelativeToGraph) ∧
    (Model.Load D m h _sdf).heap = h ∧
    (Model.Load D m h _sdf).steps = [] ∧
    Model.Load D2 m h _sdf = Model.Load D m h _sdf := by
  have hD : ∀ D1 : Collaborators, Model.Load D1 m h _sdf =
      { errors := [⟨ErrorCode.ELEMENT_INCORRECT_TYPE, Model.msgIncorrectType⟩],
        model := { m with sdf := some _sdf }, heap := h, steps := [] } := by
    intro D1
    simp [Model.Load, hne]
  rw [hD D, hD D2]
  exact ⟨rfl, rfl, ⟨rfl, rfl, rfl, rfl, rfl, rfl, rfl, rfl, rfl, rfl, rfl, rfl, rfl, rfl⟩, rfl,
    rfl, rfl⟩

/-- Witness for C14: the model "cart" as `Load` left it is handed a `world` element. -/
theorem C14_wrong_element_type_stops_load_witness :
    Examples.worldElement.GetName ≠ "model" ∧
    ((Model.Load Modelled.collaborators (Examples.loaded Examples.cart).model
        (Examples.loaded Examples.cart).heap Examples.worldElement).errors
      = [⟨ErrorCode.ELEMENT_INCORRECT_TYPE, Model.msgIncorrectType⟩] ∧
    (Model.Load Modelled.collaborators (Examples.loaded Examples.cart).model
        (Examples.loaded Examples.cart).heap Examples.worldElement).model.sdf
      = some Examples.worldElement ∧
    ((Model.Load Modelled.collaborators (Examples.loaded Examples.cart).model
        (Examples.loaded Examples.cart).heap Examples.worldElement).model.name
        = (Examples.loaded Examples.cart).model.name ∧
      (Model.Load Modelled.collaborators (Examples.loaded Examples.cart).model
        (Examples.loaded Examples.cart).heap Examples.worldElement).model.isStatic
        = (Examples.loaded Examples.cart).model.isStatic ∧
      (Model.Load Modelled.collaborators (Examples.loaded Examples.cart).model
        (Examples.loaded Examples.cart).heap Examples.worldElement).model.selfCollide
        = (Examples.loaded Examples.cart).model.selfCollide ∧
      (Model.Load Modelled.collaborators (Examples.loaded Examples.cart).model
        (Examples.loaded Examples.cart).heap Examples.worldElement).model.allowAutoDisable
        = (Examples.loaded Examples.cart).model.allowAutoDisable ∧
      (Model.Load Modelled.collaborators (Examples.loaded Examples.cart).model
        (Examples.loaded Examples.cart).heap Examples.worldElement).model.enableWind
        = (Examples.loaded Examples.cart).model.enableWind ∧
      (Model.Load Modelled.collaborators (Examples.loaded Examples.cart).model
        (Examples.loaded Examples.cart).heap Examples.worldElement).model.canonicalLink
        = (Examples.loaded Examples.cart).model.canonicalLink ∧
      (Model.Load Modelled.collaborators (Examples.loaded Examples.cart).model
        (Examples.loaded Examples.cart).heap Examples.worldElement).model.pose
        = (Examples.loaded Examples.cart).model.pose ∧
      (Model.Load Modelled.collaborators (Examples.loaded Examples.cart).model
        (Examples.loaded Examples.cart).heap Examples.worldElement).model.poseRelativeTo
        = (Examples.loaded Examples.cart).model.poseRelativeTo ∧
      (Model.Load Modelled.collaborators (Examples.loaded Examples.cart).model
        (Examples.loaded Examples.cart).heap Examples.worldElement).model.links
        = (Examples.loaded Examples.cart).model.links ∧
      (Model.Load Modelled.collaborators (Examples.loaded Examples.cart).model
        (Examples.loaded Examples.cart).heap Examples.worldElement).model.joints
        = (Examples.loaded Examples.cart).model.joints ∧
      (Model.Load Modelled.collaborators (Examples.loaded Examples.cart).model
        (Examples.loaded Examples.cart).heap Examples.worldElement).model.frames
        = (Examples.loaded Examples.cart).model.frames ∧
      (Model.Load Modelled.collaborators (Examples.loaded Examples.cart).model
        (Examples.loaded Examples.cart).heap Examples.worldElement).model.kinematicGraph
        = (Examples.loaded Examples.cart).model.kinematicGraph ∧
      (Model.Load Modelled.collaborators (Examples.loaded Examples.cart).model
        (Examples.loaded Examples.cart).heap Examples.worldElement).model.frameAttachedToGraph
        = (Examples.loaded Examples.cart).model.frameAttachedToGraph ∧
      (Model.Load Modelled.collaborators (Examples.loaded Examples.cart).model
        (Examples.loaded Examples.cart).heap Examples.worldElement).model.poseRelativeToGraph
        = (Examples.loaded Examples.cart).model.poseRelativeToGraph) ∧
    (Model.Load Modelled.collaborators (Examples.loaded Examples.cart).model
        (Examples.loaded Examples.cart).heap Examples.worldElement).heap
      = (Examples.loaded Examples.cart).heap ∧
    (Model.Load Modelled.collaborators (Examples.loaded Examples.cart).model
        (Examples.loaded Examples.cart).heap Examples.worldElement).steps = [] ∧
    Model.Load Modelled.collaborators (Examples.loaded Examples.cart).model
        (Examples.loaded Examples.cart).heap Examples.worldElement
      = Model.Load Modelled.collaborators (Examples.loaded Examples.cart).model
        (Examples.loaded Examples.cart).heap Examples.worldElement) :=
  ⟨by decide, C14_wrong_element_type_stops_load Modelled.collaborators Modelled.collaborators
    (Examples.loaded Examples.cart).model (Examples.loaded Examples.cart).heap
    Examples.worldElement (by decide)⟩

/-! ## C12: the pose of a model defaults to the identity -/

/-- The pose `Pose3d.Zero` is the identity of the composition of rigid transforms. -/
theorem rigid_mul_Zero (p : Pose3d) :
    Modelled.rigid.mul Pose3d.Zero p = p ∧ Modelled.rigid.mul p Pose3d.Zero = p := by
  cases p
  constructor <;>
    simp [Modelled.rigid, Modelled.qrot, Modelled.qmul, Modelled.qinv, Pose3d.Zero]

/-- The errors `Load` returns for a `model` element do not depend on `loadPose`. -/
theorem Load_errors_ignore_loadPose (D : Collaborators)
    (lp : sdf.Element → Pose3d → String → (Pose3d × String) × Bool) (m : ModelPrivate)
    (h : Heap) (_sdf : sdf.Element) (hm : _sdf.GetName = "model") :
    (Model.Load { D with loadPose := lp } m h _sdf).errors = (Model.Load D m h _sdf).errors := by
  rw [Load_of_model D m h _sdf hm, Load_of_model _ m h _sdf hm]
  simp only []
  rw [(readDocument_spec D _ _sdf).2.2.2.2.2, (readDocument_spec _ _ _sdf).2.2.2.2.2]

/-- C12: a newly constructed model has the identity pose (the neutral element of the
composition of poses) and an empty `PoseRelativeTo`; for every `model` element and any
collaborators the errors `Load` returns are the same whatever `loadPose` returns, so a missing
pose adds no error; and with the document readers as modelled, a `model` element without a
`pose` child, loaded into a new model, leaves the pose at the identity and `PoseRelativeTo`
empty. -/
theorem C12_pose_defaults_to_identity (D : Collaborators)
    (lp : sdf.Element → Pose3d → String → (Pose3d × String) × Bool) (m : ModelPrivate)
    (h : Heap) (_sdf : sdf.Element) (hm : _sdf.GetName = "model")
    (hpose : Modelled.findChild _sdf "pose" = none) :
    Model.Pose Model.new = Pose3d.Zero ∧
    Model.PoseRelativeTo Model.new = "" ∧
    (∀ p, Modelled.rigid.mul Pose3d.Zero p = p ∧ Modelled.rigid.mul p Pose3d.Zero = p) ∧
    (Model.Load { D with loadPose := lp } m h _sdf).errors = (Model.Load D m h _sdf).errors ∧
    (Modelled.loadPose _sdf m.pose m.poseRelativeTo).2 = false ∧
    Model.Pose (Model.Load Modelled.collaborators Model.new h _sdf).model = Pose3d.Zero ∧
    Model.PoseRelativeTo (Model.Load Modelled.collaborators Model.new h _sdf).model = "" := by
  refine ⟨rfl, rfl, rigid_mul_Zero, Load_errors_ignore_loadPose D lp m h _sdf hm, ?_, ?_, ?_⟩
  · simp [Modelled.loadPose, hpose]
  · rw [Load_of_model _ _ h _sdf hm]
    simp [Model.Pose, Model.Load.shareGraph, Model.Load.makeShared,
      Model.Load.buildFrameAttachedTo, Model.Load.buildKinematic, Model.Load.readDocument,
      Model.Load.loadFrames, Model.Load.loadJoints, Model.Load.loadLinks, Model.Load.readPose,
      Model.Load.readFlags, readCanonicalLink_eq, Model.Load.readName, Modelled.collaborators,
      Modelled.loadPose, hpose, Model.new]
  · rw [Load_of_model _ _ h _sdf hm]
    simp [Model.PoseRelativeTo, Model.Load.shareGraph, Model.Load.makeShared,
      Model.Load.buildFrameAttachedTo, Model.Load.buildKinematic, Model.Load.readDocument,
      Model.Load.loadFrames, Model.Load.loadJoints, Model.Load.loadLinks, Model.Load.readPose,
      Model.Load.readFlags, readCanonicalLink_eq, Model.Load.readName, Modelled.collaborators,
      Modelled.loadPose, hpose, Model.new]

/-- Witness for C12: the model with one link and no `pose` child, loaded into a new model; the
replacement for `loadPose` always reports a failure. -/
theorem C12_pose_defaults_to_identity_witness :
    Examples.poseless.GetName = "model" ∧
    Modelled.findChild Examples.poseless "pose" = none ∧
    (Model.Pose Model.new = Pose3d.Zero ∧
    Model.PoseRelativeTo Model.new = "" ∧
    (∀ p, Modelled.rigid.mul Pose3d.Zero p = p ∧ Modelled.rigid.mul p Pose3d.Zero = p) ∧
    (Model.Load { Modelled.collaborators with loadPose := fun _ p f => ((p, f), false) }
        Model.new [] Examples.poseless).errors
      = (Model.Load Modelled.collaborators Model.new [] Examples.poseless).errors ∧
    (Modelled.loadPose Examples.poseless Model.new.pose Model.new.poseRelativeTo).2 = false ∧
    Model.Pose (Model.Load Modelled.collaborators Model.new [] Examples.poseless).model
      = Pose3d.Zero ∧
    Model.PoseRelativeTo (Model.Load Modelled.collaborators Model.new [] Examples.poseless).model
      = "") :=
  ⟨rfl, rfl, C12_pose_defaults_to_identity Modelled.collaborators
    (fun _ p f => ((p, f), false)) Model.new [] Examples.poseless rfl rfl⟩

end sdf

namespace usd

/-! ## C16: removeSubStr -/

/-- C16 (fails on the code): the claim is that `removeSubStr(str, substr)` removes the first
occurrence of `substr`.  The code searches for the constant "/World" and erases as many
characters as `substr` has: from "/World/robot" with the substring "robot" it makes "d/robot"
where the claim gives "/World/", and it leaves "ab/robot" unchanged where the claim gives
"ab/".  Only for the substring "/World" itself do the two agree here. -/
theorem C16_removeSubStr_searches_a_constant :
    removeSubStr "/World/robot" "robot" = "d/robot" ∧
    removeSubStr_asClaimed "/World/robot" "robot" = "/World/" ∧
    removeSubStr "ab/robot" "robot" = "ab/robot" ∧
    removeSubStr_asClaimed "ab/robot" "robot" = "ab/" ∧
    removeSubStr "/World/robot" "/World" = removeSubStr_asClaimed "/World/robot" "/World" := by
  decide

/-! ## C17: directoryFromUSDPath -/

/-- The loop of `directoryFromUSDPath` started at `i` with `k` rounds to run reads the
components `i + 1` to `i + k`; it stays inside the vector when `i + k` is below its size. -/
theorem directoryFromUSDPath_loop_eq (C : Common) (tokens : List String) (k i : Nat)
    (dir : String) (hk : i + k < tokens.length) :
    directoryFromUSDPath.loop C tokens k i dir
      = some (((tokens.drop (i + 1)).take k).foldl C.joinPaths dir) := by
  induction k generalizing i dir with
  | zero => simp [directoryFromUSDPath.loop]
  | succ k ih =>
    have hi : i + 1 < tokens.length := by omega
    unfold directoryFromUSDPath.loop
    rw [List.get?_eq_get hi]
    simp only []
    rw [ih (i + 1) _ (by omega)]
    congr 1
    rw [List.drop_eq_getElem_cons hi, List.take_succ_cons, List.foldl_cons]
    rfl

/-- What `directoryFromUSDPath` returns, for every path: it never reads outside of the vector
of components; for fewer than two components the result is empty; otherwise it is the first
component joined with the third and all later ones, the last included. -/
theorem directoryFromUSDPath_eq (C : Common) (_primPath : String) :
    directoryFromUSDPath C _primPath
      = some (if (C.split _primPath "/").length > 1 then
          ((C.split _primPath "/").drop 2).foldl C.joinPaths ((C.split _primPath "/").getD 0 "")
        else "") := by
  unfold directoryFromUSDPath
  simp only []
  split
  · next hlen =>
    have h0 : 0 < (C.split _primPath "/").length := by omega
    rw [List.get?_eq_get h0]
    simp only []
    rw [directoryFromUSDPath_loop_eq C _ _ 1 _ (by omega)]
    congr 1
    have ht : ((C.split _primPath "/").drop (1 + 1)).take ((C.split _primPath "/").length - 1 - 1)
        = (C.split _primPath "/").drop 2 := by
      apply List.take_of_length_le
      simp
      omega
    rw [ht]
    congr 1
    simp [List.getD_eq_getElem?_getD, List.getElem?_eq_getElem h0]
  · rfl

/-- C17 (fails on the code): the claim is that for components `t0 .. t(n-1)`, `n >= 2`, the
result is `t0 .. t(n-2)` joined.  For the path "/robot/arm/mesh", with components `robot`,
`arm`, `mesh`, the code returns "robot/mesh" where the claim gives "robot/arm": the loop joins
`tokensChild[i+1]`, so the second component is skipped and the last one is included.  The
rest of the claim holds at these inputs: the two agree for two components and for fewer, and
no index is out of range (the result is never `none`). -/
theorem C17_directory_skips_the_second_component :
    common.split "/robot/arm/mesh" "/" = ["robot", "arm", "mesh"] ∧
    directoryFromUSDPath common "/robot/arm/mesh" = some "robot/mesh" ∧
    directoryFromUSDPath_asClaimed common "/robot/arm/mesh" = "robot/arm" ∧
    directoryFromUSDPath common "/a/b/c/d/e" = some "a/c/d/e" ∧
    directoryFromUSDPath_asClaimed common "/a/b/c/d/e" = "a/b/c/d" ∧
    directoryFromUSDPath common "/robot/arm"
      = some (directoryFromUSDPath_asClaimed common "/robot/arm") ∧
    directoryFromUSDPath common "/robot" = some "" := by
  decide

end usd

namespace usd

/-! ## C18: the flags of ParseTransform -/

/-- The flags after one round of the loop of `ParseTransform`: a flag is raised by the
operations of its kind and by `xformOp:transform`, and no round lowers a flag. -/
theorem ParseTransform_step_flags (P : XformPrim) (t : Transform) (op : String) :
    (ParseTransform.step P t op).isScale
      = (t.isScale || decide (op = "xformOp:scale" ∨ op = "xformOp:transform")) ∧
    (ParseTransform.step P t op).isTranslate
      = (t.isTranslate || decide (op = "xformOp:translate" ∨ op = "xformOp:transform")) ∧
    (ParseTransform.step P t op).isRotation
      = (t.isRotation || decide (op = "xformOp:rotateZYX" ∨ op = "xformOp:orient"
          ∨ op = "xformOp:transform")) := by
  unfold ParseTransform.step
  by_cases h1 : op = "xformOp:scale"
  · subst h1
    simp [ParseTransform.opScale]
  · by_cases h2 : op = "xformOp:rotateZYX"
    · subst h2
      simp [ParseTransform.opRotateZYX]
    · by_cases h3 : op = "xformOp:translate"
      · subst h3
        simp [ParseTransform.opTranslate]
      · by_cases h4 : op = "xformOp:orient"
        · subst h4
          simp [ParseTransform.opOrient]
        · by_cases h5 : op = "xformOp:transform"
          · subst h5
            simp [ParseTransform.opTransform]
          · simp [h1, h2, h3, h4, h5]

/-- The flags after the loop of `ParseTransform` over a list of operations, started from any
values of the local variables. -/
theorem ParseTransform_foldl_flags (P : XformPrim) (ops : List String) (t : Transform) :
    (ops.foldl (ParseTransform.step P) t).isScale
      = (t.isScale || ops.any (fun op => decide (op = "xformOp:scale"
          ∨ op = "xformOp:transform"))) ∧
    (ops.foldl (ParseTransform.step P) t).isTranslate
      = (t.isTranslate || ops.any (fun op => decide (op = "xformOp:translate"
          ∨ op = "xformOp:transform"))) ∧
    (ops.foldl (ParseTransform.step P) t).isRotation
      = (t.isRotation || ops.any (fun op => decide (op = "xformOp:rotateZYX"
          ∨ op = "xformOp:orient" ∨ op = "xformOp:transform"))) := by
  induction ops generalizing t with
  | nil => simp
  | cons op rest ih =>
    obtain ⟨h1, h2, h3⟩ := ParseTransform_step_flags P t op
    obtain ⟨i1, i2, i3⟩ := ih (ParseTransform.step P t op)
    simp only [List.foldl_cons, List.any_cons]
    rw [i1, i2, i3, h1, h2, h3]
    simp [Bool.or_assoc]

/-- C18: for every prim, whatever its attributes hold, `isScale` is true exactly when the
`xformOpOrder` list contains "xformOp:scale" or "xformOp:transform", `isTranslate` exactly when
it contains "xformOp:translate" or "xformOp:transform", and `isRotation` exactly when it
contains "xformOp:rotateZYX", "xformOp:orient" or "xformOp:transform"; for an empty list the
three flags are false and the scale, the translation and the rotation returned are `(1, 1, 1)`,
`(0, 0, 0)` and the quaternion `(1, 0, 0, 0)`. -/
theorem C18_transform_flags_follow_xformOpOrder (P : XformPrim) :
    ((ParseTransform P).isScale = true ↔
      "xformOp:scale" ∈ P.xformOpOrder ∨ "xformOp:transform" ∈ P.xformOpOrder) ∧
    ((ParseTransform P).isTranslate = true ↔
      "xformOp:translate" ∈ P.xformOpOrder ∨ "xformOp:transform" ∈ P.xformOpOrder) ∧
    ((ParseTransform P).isRotation = true ↔
      "xformOp:rotateZYX" ∈ P.xformOpOrder ∨ "xformOp:orient" ∈ P.xformOpOrder
        ∨ "xformOp:transform" ∈ P.xformOpOrder) ∧
    ParseTransform { P with xformOpOrder := [] }
      = { scale := ⟨1, 1, 1⟩, translate := ⟨0, 0, 0⟩, rotationQuad := ⟨1, 0, 0, 0⟩,
          isScale := false, isTranslate := false, isRotation := false } := by
  obtain ⟨h1, h2, h3⟩ := ParseTransform_foldl_flags P P.xformOpOrder ParseTransform.init
  unfold ParseTransform
  rw [h1, h2, h3]
  refine ⟨?_, ?_, ?_, rfl⟩
  · simp only [ParseTransform.init, Bool.false_or, List.any_eq_true, decide_eq_true_eq]
    constructor
    · rintro ⟨op, hop, h | h⟩
      · exact Or.inl (h ▸ hop)
      · exact Or.inr (h ▸ hop)
    · rintro (h | h)
      · exact ⟨_, h, Or.inl rfl⟩
      · exact ⟨_, h, Or.inr rfl⟩
  · simp only [ParseTransform.init, Bool.false_or, List.any_eq_true, decide_eq_true_eq]
    constructor
    · rintro ⟨op, hop, h | h⟩
      · exact Or.inl (h ▸ hop)
      · exact Or.inr (h ▸ hop)
    · rintro (h | h)
      · exact ⟨_, h, Or.inl rfl⟩
      · exact ⟨_, h, Or.inr rfl⟩
  · simp only [ParseTransform.init, Bool.false_or, List.any_eq_true, decide_eq_true_eq]
    constructor
    · rintro ⟨op, hop, h | h | h⟩
      · exact Or.inl (h ▸ hop)
      · exact Or.inr (Or.inl (h ▸ hop))
      · exact Or.inr (Or.inr (h ▸ hop))
    · rintro (h | h | h)
      · exact ⟨_, h, Or.inl rfl⟩
      · exact ⟨_, h, Or.inr (Or.inl rfl)⟩
      · exact ⟨_, h, Or.inr (Or.inr rfl)⟩

end usd

namespace usd.Parser

/-! ## parseUSD: the world link through the loop over the prims -/

/-- A key that starts with "/" is not the key "world". -/
theorem slash_ne_world (rest : String) : "/" ++ rest ≠ "world" := by
  intro h
  have hd := congrArg String.data h
  rw [String.data_append] at hd
  simp at hd

/-- The key `parseUSD` builds from the first two components starts with "/". -/
theorem nameLink_starts_with_slash (a b : String) :
    "/" ++ a ++ "/" ++ b = "/" ++ (a ++ "/" ++ b) := by
  simp [String.append_assoc]

/-- The entry under a key is not touched by an update of the entries under another key. -/
theorem lookup_map_other {β : Type} (m : List (String × β)) (k key : String) (f : β → β)
    (hk : key ≠ k) :
    (m.map (fun e => if e.1 = key then (e.1, f e.2) else e)).lookup k = m.lookup k := by
  induction m with
  | nil => rfl
  | cons e rest ih =>
    obtain ⟨ek, ev⟩ := e
    simp only [List.map_cons]
    by_cases h1 : ek = key
    · have hne : (k == ek) = false := by simpa using fun h : k = ek => hk (h1 ▸ h.symm)
      rw [if_pos h1]
      simp only [List.lookup_cons, hne]
      exact ih
    · rw [if_neg h1]
      by_cases h2 : (k == ek) = true
      · simp only [List.lookup_cons, h2]
      · have hne : (k == ek) = false := by simpa using h2
        simp only [List.lookup_cons, hne]
        exact ih

/-- An entry that is in the map is still found after an entry was appended. -/
theorem lookup_append_of_some {β : Type} (m : List (String × β)) (k : String) (v : β)
    (e : String × β) (hm : m.lookup k = some v) : (m ++ [e]).lookup k = some v := by
  induction m with
  | nil => simp [List.lookup] at hm
  | cons x rest ih =>
    obtain ⟨xk, xv⟩ := x
    by_cases h : (k == xk) = true
    · simp [List.lookup, h] at hm ⊢
      exact hm
    · have hf : (k == xk) = false := by simpa using h
      simp only [List.lookup, hf, List.cons_append] at hm ⊢
      exact ih hm

/-- The world link is kept by `parseLink` when the key starts with "/". -/
theorem parseLink_keeps_world (L : Library) (prim : UsdPrim) (u : ℚ) (model : ModelInterface)
    (rest : String) (hw : WorldKept model) :
    WorldKept (parseUSD.parseLink L prim u model ("/" ++ rest)) := by
  obtain ⟨hfind, hkeys⟩ := hw
  unfold parseUSD.parseLink
  cases hfound : mapFind model.links_ ("/" ++ rest) with
  | some found =>
    refine ⟨?_, ?_⟩
    · exact (lookup_map_other model.links_ "world" ("/" ++ rest)
        (fun l => L.ParseLinks_found prim l u) (slash_ne_world rest)).trans hfind
    · intro e he
      simp only [List.mem_map] at he
      obtain ⟨e0, he0, rfl⟩ := he
      have := hkeys e0 he0
      split <;> simpa using this
  | none =>
    cases hnew : L.ParseLinks_null prim u with
    | none => exact ⟨hfind, hkeys⟩
    | some link =>
      have hins : mapInsert model.links_ ("/" ++ rest) link
          = model.links_ ++ [("/" ++ rest, link)] := by
        simp [mapInsert, hfound]
      simp only [hins]
      refine ⟨?_, ?_⟩
      · exact lookup_append_of_some _ _ _ _ hfind
      · intro e he
        simp only [List.mem_append, List.mem_singleton] at he
        rcases he with he | rfl
        · exact hkeys e he
        · exact Or.inr ⟨rest, rfl⟩

/-- A model that keeps the world link has a link map that is not empty. -/
theorem links_not_empty_of_world (model : ModelInterface) (hw : WorldKept model) :
    model.links_.isEmpty = false := by
  obtain ⟨hfind, -⟩ := hw
  cases hl : model.links_ with
  | nil => simp [mapFind, hl, List.lookup] at hfind
  | cons e rest => rfl

/-- One round of the loop of `parseUSD` never returns the null model and keeps the world
link. -/
theorem visit_keeps_world (L : Library) (u : ℚ) (s : LoopState) (prim : UsdPrim)
    (hw : WorldKept s.model) :
    ∃ s1, parseUSD.visit L u s prim = some s1 ∧ WorldKept s1.model := by
  unfold parseUSD.visit
  simp only []
  split
  · exact ⟨s, rfl, hw⟩
  · split
    · split
      · exact ⟨_, rfl, hw⟩
      · exact ⟨_, rfl, hw⟩
    · split
      · exact ⟨_, rfl, hw⟩
      · next h0 hj h1 =>
        split
        · exact ⟨_, rfl, hw⟩
        · have hlen : (L.split (parseUSD.primName prim) "/").length > 1 := by omega
          simp only [hlen, if_true]
          rw [nameLink_starts_with_slash]
          have hk := parseLink_keeps_world L prim u s.model
            ((L.split (parseUSD.primName prim) "/").getD 0 "" ++ "/" ++
              (L.split (parseUSD.primName prim) "/").getD 1 "") hw
          rw [links_not_empty_of_world _ hk]
          exact ⟨_, rfl, hk⟩

/-- The loop of `parseUSD` over any prims never returns the null model and keeps the world
link. -/
theorem visitAll_keeps_world (L : Library) (u : ℚ) (prims : List UsdPrim) (s : LoopState)
    (hw : WorldKept s.model) :
    ∃ s1, parseUSD.visitAll L u s prims = some s1 ∧ WorldKept s1.model := by
  induction prims generalizing s with
  | nil => exact ⟨s, rfl, hw⟩
  | cons prim rest ih =>
    obtain ⟨s1, h1, hw1⟩ := visit_keeps_world L u s prim hw
    unfold parseUSD.visitAll
    rw [h1]
    exact ih s1 hw1

/-- The start of `parseUSD` does not return the null model, and leaves a link map that holds
the world link and nothing else. -/
theorem start_eq :
    parseUSD.start = some
      { model :=
          { name_ := "test", links_ := [("world", worldLink)], joints_ := [],
            root_link_ := none },
        rootPath := "", nameLink := "" } := by
  rfl

/-- For every stage, the part of `parseUSD` up to the call of `initTree` yields a model, and
this model keeps the world link. -/
theorem links_keeps_world (L : Library) (stage : UsdStage) :
    ∃ m, parseUSD.links L stage = some m ∧ WorldKept m := by
  unfold parseUSD.links
  rw [start_eq]
  simp only []
  have hw0 : WorldKept
      { name_ := "test", links_ := [("world", worldLink)], joints_ := [],
        root_link_ := none } := by
    refine ⟨rfl, ?_⟩
    intro e he
    simp only [List.mem_singleton] at he
    exact Or.inl (by rw [he])
  obtain ⟨s1, h1, hw1⟩ := visitAll_keeps_world L stage.metersPerUnit stage.prims
    { model :=
        { name_ := "test", links_ := [("world", worldLink)], joints_ := [],
          root_link_ := none },
      rootPath := "", nameLink := "" } hw0
  rw [h1]
  exact ⟨_, rfl, hw1⟩

/-- A model that keeps the world link has the world link. -/
theorem HasWorld_of_WorldKept (m : ModelInterface) (hw : WorldKept m) : HasWorld m :=
  ⟨worldLink, hw.1, rfl⟩

/-- The modelled `initTree` leaves the model as it is. -/
theorem Modelled_initTree_model (m m1 : ModelInterface) (t t1 : LinkTree)
    (h : Modelled.initTree m t = Except.ok (m1, t1)) : m1 = m := by
  unfold Modelled.initTree at h
  split at h
  · simp only [Except.ok.injEq, Prod.mk.injEq] at h
    exact h.1.symm
  · simp at h

/-- The modelled `initRoot` leaves the link map as it is. -/
theorem Modelled_initRoot_links (m m1 : ModelInterface) (t : LinkTree)
    (h : Modelled.initRoot m t = Except.ok m1) : m1.links_ = m.links_ := by
  unfold Modelled.initRoot at h
  split at h
  · simp at h
  · simp only [Except.ok.injEq] at h
    rw [← h]
  · simp at h

/-! ## C13: the world link of a parsed model -/

/-- C13: the link named "world" is inserted under the key "world" before any prim is visited;
for every stage, the loop over the prims leaves that entry as it was inserted, and every other
key of the link map starts with "/"; hence, for every library whose `initTree` and `initRoot`
keep the entry under "world" and its name, every model `parseUSD` returns that is not null has
an entry under the key "world" whose link is named "world". -/
theorem C13_parsed_model_contains_the_world_link (L : Library) (xml_string : String)
    (model : ModelInterface)
    (hTree : ∀ m t m1 t1, L.initTree m t = Except.ok (m1, t1) → HasWorld m → HasWorld m1)
    (hRoot : ∀ m t m1, L.initRoot m t = Except.ok m1 → HasWorld m → HasWorld m1)
    (h : parseUSD L xml_string = some model) :
    (∃ l, mapFind model.links_ "world" = some l ∧ l.name = "world") ∧
    (∃ s0, parseUSD.start = some s0 ∧ s0.model.links_ = [("world", ⟨"world", []⟩)]) ∧
    (∀ stage : UsdStage, ∃ m, parseUSD.links L stage = some m ∧
      mapFind m.links_ "world" = some ⟨"world", []⟩ ∧
      ∀ e ∈ m.links_, e.1 = "world" ∨ ∃ rest, e.1 = "/" ++ rest) := by
  refine ⟨?_, ⟨_, start_eq, rfl⟩, fun stage => links_keeps_world L stage⟩
  unfold parseUSD at h
  cases himp : L.ImportFromString xml_string with
  | none => simp [himp] at h
  | some stage =>
    obtain ⟨m, hm, hw⟩ := links_keeps_world L stage
    simp only [himp, hm] at h
    cases ht : L.initTree m [] with
    | error e => simp [ht] at h
    | ok r =>
      obtain ⟨m1, t1⟩ := r
      simp only [ht] at h
      cases hr : L.initRoot m1 t1 with
      | error e => simp [hr] at h
      | ok m2 =>
        simp only [hr, Option.some.injEq] at h
        subst h
        exact hRoot m1 t1 m2 hr (hTree m [] m1 t1 ht (HasWorld_of_WorldKept m hw))

/-- Witness for C13: the stage `robotStage`, parsed with the sample library, whose `initTree`
and `initRoot` are the modelled ones. -/
theorem C13_parsed_model_contains_the_world_link_witness :
    (∀ m t m1 t1, Examples.library.initTree m t = Except.ok (m1, t1) →
      HasWorld m → HasWorld m1) ∧
    (∀ m t m1, Examples.library.initRoot m t = Except.ok m1 → HasWorld m → HasWorld m1) ∧
    parseUSD Examples.library "robot.usda" = some
      { name_ := "test",
        links_ := [("world", ⟨"world", []⟩),
          ("/robot/base", ⟨"base", ["/World/robot/base", "/World/robot/base/mesh"]⟩)],
        joints_ := [("fixed", ⟨"fixed", "world", "/robot/base"⟩)],
        root_link_ := some "world" } ∧
    ((∃ l, mapFind
        ({ name_ := "test",
           links_ := [("world", ⟨"world", []⟩),
             ("/robot/base", ⟨"base", ["/World/robot/base", "/World/robot/base/mesh"]⟩)],
           joints_ := [("fixed", ⟨"fixed", "world", "/robot/base"⟩)],
           root_link_ := some "world" } : ModelInterface).links_ "world" = some l
        ∧ l.name = "world") ∧
    (∃ s0, parseUSD.start = some s0 ∧ s0.model.links_ = [("world", ⟨"world", []⟩)]) ∧
    (∀ stage : UsdStage, ∃ m, parseUSD.links Examples.library stage = some m ∧
      mapFind m.links_ "world" = some ⟨"world", []⟩ ∧
      ∀ e ∈ m.links_, e.1 = "world" ∨ ∃ rest, e.1 = "/" ++ rest)) :=
  have hTree : ∀ m t m1 t1, Examples.library.initTree m t = Except.ok (m1, t1) →
      HasWorld m → HasWorld m1 :=
    fun m t m1 t1 h hw => (Modelled_initTree_model m m1 t t1 h) ▸ hw
  have hRoot : ∀ m t m1, Examples.library.initRoot m t = Except.ok m1 →
      HasWorld m → HasWorld m1 :=
    fun m t m1 h hw => by
      have hl := Modelled_initRoot_links m m1 t h
      obtain ⟨l, hl1, hl2⟩ := hw
      exact ⟨l, by rw [hl]; exact hl1, hl2⟩
  ⟨hTree, hRoot, by decide,
    C13_parsed_model_contains_the_world_link Examples.library "robot.usda" _ hTree hRoot
      (by decide)⟩

/-! ## C15: when parseUSD returns the null model -/

/-- C15: for every library and every input string, the check of the name and the check of an
empty link map never return the null model (the start yields a model, and for every stage the
loop over the prims yields one); and `parseUSD` returns the null model exactly when the import
of the string fails, or `initTree` raises `ParseError` on the model the loop left, or `initRoot`
raises `ParseError` on the model `initTree` left. -/
theorem C15_null_model_exactly_on_import_or_tree_errors (L : Library) (xml_string : String) :
    parseUSD.start ≠ none ∧
    (∀ stage : UsdStage, ∃ m, parseUSD.links L stage = some m) ∧
    (parseUSD L xml_string = none ↔
      (L.ImportFromString xml_string = none ∨
       (∃ stage m e, L.ImportFromString xml_string = some stage ∧
          parseUSD.links L stage = some m ∧ L.initTree m [] = Except.error e) ∨
       (∃ stage m m1 t e, L.ImportFromString xml_string = some stage ∧
          parseUSD.links L stage = some m ∧ L.initTree m [] = Except.ok (m1, t) ∧
          L.initRoot m1 t = Except.error e))) := by
  refine ⟨by rw [start_eq]; simp, fun stage => ?_, ?_⟩
  · obtain ⟨m, hm, -⟩ := links_keeps_world L stage
    exact ⟨m, hm⟩
  · unfold parseUSD
    cases himp : L.ImportFromString xml_string with
    | none => simp
    | some stage =>
      obtain ⟨m, hm, -⟩ := links_keeps_world L stage
      simp only [hm]
      cases ht : L.initTree m [] with
      | error e =>
        simp only [true_iff]
        exact Or.inr (Or.inl ⟨stage, m, e, rfl, hm, ht⟩)
      | ok r =>
        obtain ⟨m1, t1⟩ := r
        simp only []
        cases hr : L.initRoot m1 t1 with
        | error e =>
          simp only [true_iff]
          exact Or.inr (Or.inr ⟨stage, m, m1, t1, e, rfl, hm, ht, hr⟩)
        | ok m2 =>
          simp only [false_iff, reduceCtorEq, not_or, not_exists, not_and, not_false_eq_true,
            true_and]
          constructor
          · intro st mm e hst hmm hte
            cases hst
            rw [hm] at hmm
            cases hmm
            rw [ht] at hte
            cases hte
          · intro st mm mm1 tt e hst hmm hte hre
            cases hst
            rw [hm] at hmm
            cases hmm
            rw [ht] at hte
            cases hte
            rw [hr] at hre
            cases hre

end usd.Parser
